import Mathlib

/-!
Shallow embedding of the persona execution orchestrator core
(packages/shared, packages/orchestrator): event-subscription matching,
prompt assembly, the Event Processor tick, the Dispatcher, the Worker Pool,
and the Trigger Scheduler tick, together with theorems settling the
specification claims about them.

Strings of the host language (TypeScript / JavaScript) are modelled as Lean
`String`s viewed as lists of characters; `startsWith`, `endsWith` and
`slice(0, -1)` are modelled at the character-list level.  JavaScript
truthiness (`if (x)`) is modelled explicitly: `null`/`undefined`, `false`,
`0` and the empty string are falsy.  Host-library calls that the repository
does not define (JSON.parse, JSON.stringify, crypto decryption) are passed
in as explicit function parameters.
-/

namespace PersonasCloud

/-- Model of a JavaScript JSON value, the possible results of `JSON.parse`. -/
inductive Json where
  | null
  | bool (b : Bool)
  | num (n : Int)
  | str (s : String)
  | arr (elems : List Json)
  | obj (fields : List (String × Json))
deriving Repr

/-- JavaScript truthiness of a JSON value: `null`, `false`, `0` and `""` are falsy. -/
def Json.truthy : Json → Bool
  | .null => false
  | .bool b => b
  | .num n => n != 0
  | .str s => s != ""
  | _ => true

/-- Property access `x[k]` on a JSON value: a field lookup on objects, `undefined` otherwise. -/
def Json.get? : Json → String → Option Json
  | .obj fields, k => (fields.find? (fun kv => kv.1 == k)).map (fun kv => kv.2)
  | _, _ => none

/-- Truthiness of an optional string (a `string | null` field): null and `""` are falsy. -/
def strTruthy : Option String → Bool
  | none => false
  | some s => s != ""

/-- Model of JavaScript `s.startsWith(p)` at the character level. -/
def jsStartsWith (s pre : String) : Bool :=
  pre.data.isPrefixOf s.data

/-- Model of JavaScript `s.endsWith(p)` at the character level. -/
def jsEndsWith (s post : String) : Bool :=
  post.data.isSuffixOf s.data

/-- Model of JavaScript `s.slice(0, -1)`: the string without its last character. -/
def jsDropLast (s : String) : String :=
  String.mk s.data.dropLast

/-- Helper for `jsIncludes`: does `needle` occur as a prefix of some suffix of the list. -/
def jsIncludesAux (needle : List Char) : List Char → Bool
  | [] => needle.isEmpty
  | c :: rest => needle.isPrefixOf (c :: rest) || jsIncludesAux needle rest

/-- Model of JavaScript `hay.includes(needle)` used to state substring facts. -/
def jsIncludes (hay needle : String) : Bool :=
  jsIncludesAux needle.data hay.data

/-- Persona row (packages/shared types: `Persona`). -/
structure Persona where
  id : String
  projectId : String
  name : String
  description : Option String
  systemPrompt : String
  structuredPrompt : Option String
  icon : Option String
  color : Option String
  enabled : Bool
  maxConcurrent : Nat
  timeoutMs : Nat
  modelProfile : Option String
  maxBudgetUsd : Option Int
  maxTurns : Option Nat
  designContext : Option String
  groupId : Option String
  createdAt : String
  updatedAt : String
deriving Repr, DecidableEq

/-- Pending-event row (packages/shared types: `PersonaEvent`). -/
structure PersonaEvent where
  id : String
  projectId : String
  eventType : String
  sourceType : String
  sourceId : Option String
  targetPersonaId : Option String
  payload : Option String
  status : String
  errorMessage : Option String
  processedAt : Option String
  useCaseId : Option String
  createdAt : String
deriving Repr, DecidableEq

/-- Event-subscription row (packages/shared types: `PersonaEventSubscription`). -/
structure PersonaEventSubscription where
  id : String
  personaId : String
  eventType : String
  sourceFilter : Option String
  enabled : Bool
  useCaseId : Option String
  createdAt : String
  updatedAt : String
deriving Repr, DecidableEq

/-- A matched subscription (packages/shared/src/prompt.ts: `EventMatch`). -/
structure EventMatch where
  eventId : String
  eventType : String
  subscriptionId : String
  personaId : String
  payload : Option String
  sourceId : Option String
  useCaseId : Option String
deriving Repr, DecidableEq

/-- Embedding of `sourceFilterMatches` (packages/shared/src/prompt.ts):
exact match or trailing-`*` prefix wildcard; `if (!sourceId) return false`
rejects both a null and an empty sourceId (JS truthiness). -/
def sourceFilterMatches (filter : String) (sourceId : Option String) : Bool :=
  match sourceId with
  | none => false
  | some s =>
    if s == "" then false
    else if jsEndsWith filter ("*") then
      jsStartsWith s (jsDropLast filter)
    else s == filter

/-- The third early-return guard of `matchEvent`:
`event.targetPersonaId && event.targetPersonaId !== sub.personaId`
(truthy target persona that differs from the subscription's persona). -/
def targetPersonaGuard (personaId : String) : Option String → Bool
  | some t => t != "" && t != personaId
  | none => false

/-- The fourth early-return guard of `matchEvent`:
`sub.sourceFilter && !sourceFilterMatches(sub.sourceFilter, event.sourceId)`
(truthy source filter that the event's sourceId fails to match). -/
def sourceFilterGuard (sourceId : Option String) : Option String → Bool
  | some f => f != "" && !sourceFilterMatches f sourceId
  | none => false

/-- The filter predicate inside `matchEvent`, rendered as the conjunction of
the negations of the four early-return guards (`if (g) return false`). -/
def matchEventCond (event : PersonaEvent) (sub : PersonaEventSubscription) : Bool :=
  sub.enabled
    && sub.eventType == event.eventType
    && !(targetPersonaGuard sub.personaId event.targetPersonaId)
    && !(sourceFilterGuard event.sourceId sub.sourceFilter)

/-- The `EventMatch` built by `matchEvent` for an accepted subscription. -/
def mkEventMatch (event : PersonaEvent) (sub : PersonaEventSubscription) : EventMatch :=
  { eventId := event.id
    eventType := event.eventType
    subscriptionId := sub.id
    personaId := sub.personaId
    payload := event.payload
    sourceId := event.sourceId
    useCaseId := sub.useCaseId }

/-- Embedding of `matchEvent` (packages/shared/src/prompt.ts): filter the
subscription list by the matching rules, then map each survivor to an
`EventMatch`, preserving enumeration order. -/
def matchEvent (event : PersonaEvent) (subscriptions : List PersonaEventSubscription) :
    List EventMatch :=
  (subscriptions.filter (fun sub => matchEventCond event sub)).map
    (fun sub => mkEventMatch event sub)

/-- Claim C2's source-filter clause for a set filter, as the claim words it:
the sourceId is non-null and either equals the filter or, for a trailing-`*`
filter, starts with the filter minus that character. -/
def claimSourceMatch (f : String) : Option String → Bool
  | some s => s == f || (jsEndsWith f ("*") && jsStartsWith s (jsDropLast f))
  | none => false

/-- Claim C2's target clause, reading "set" as non-null. -/
def claimTargetOk (personaId : String) : Option String → Bool
  | some t => personaId == t
  | none => true

/-- Claim C2's source-filter clause, reading "set" as non-null. -/
def claimSourceOk (sourceId : Option String) : Option String → Bool
  | some f => claimSourceMatch f sourceId
  | none => true

/-- The matching condition exactly as claim C2 words it, reading "set" as
non-null: enabled, same eventType, persona pinned when `targetPersonaId` is
non-null, and when `sourceFilter` is non-null the sourceId must be non-null
and equal the filter or start with a trailing-`*` filter's stem. -/
def claimC2Cond (event : PersonaEvent) (sub : PersonaEventSubscription) : Bool :=
  sub.enabled && sub.eventType == event.eventType
    && claimTargetOk sub.personaId event.targetPersonaId
    && claimSourceOk event.sourceId sub.sourceFilter

/-- Claim C2's source-filter clause for a set filter with the amendment that
the sourceId must also be non-empty. -/
def specSourceMatch (f : String) : Option String → Bool
  | some s => s != "" && (s == f || (jsEndsWith f ("*") && jsStartsWith s (jsDropLast f)))
  | none => false

/-- Claim C2's target clause with "set" amended to mean set to a non-empty
string (JS truthiness): an empty target persona id pins nothing. -/
def specTargetOk (personaId : String) : Option String → Bool
  | some t => t == "" || personaId == t
  | none => true

/-- Claim C2's source-filter clause with "set" amended to mean set to a
non-empty string (JS truthiness): an empty filter filters nothing. -/
def specSourceOk (sourceId : Option String) : Option String → Bool
  | some f => f == "" || specSourceMatch f sourceId
  | none => true

/-- The matching condition with claim C2's "set" amended to mean set to a
non-empty string (JS truthiness), and the sourceId additionally required
non-empty; otherwise exactly as the claim states it. -/
def specC2Cond (event : PersonaEvent) (sub : PersonaEventSubscription) : Bool :=
  sub.enabled && sub.eventType == event.eventType
    && specTargetOk sub.personaId event.targetPersonaId
    && specSourceOk event.sourceId sub.sourceFilter

/-- Concrete event used to refute claim C2 as stated: sourceId is null. -/
def c2Event : PersonaEvent :=
  { id := "e0"
    projectId := "default"
    eventType := "gitlab_push"
    sourceType := "webhook"
    sourceId := none
    targetPersonaId := none
    payload := none
    status := "processing"
    errorMessage := none
    processedAt := none
    useCaseId := none
    createdAt := "2026-01-01T00:00:00.000Z" }

/-- Concrete subscription used to refute claim C2 as stated: its
sourceFilter is set (non-null) but empty, so JS truthiness skips the
source-filter guard in the code. -/
def c2Sub : PersonaEventSubscription :=
  { id := "s0"
    personaId := "p1"
    eventType := "gitlab_push"
    sourceFilter := some ""
    enabled := true
    useCaseId := none
    createdAt := "2026-01-01T00:00:00.000Z"
    updatedAt := "2026-01-01T00:00:00.000Z" }

/-- Claim C2 counterexample: with a subscription whose `sourceFilter` is the
empty string and an event whose `sourceId` is null, `matchEvent` emits a
match, while the claim (sourceFilter set ⟹ sourceId non-null) says it must
not: the claimed filter predicate yields the empty match list. -/
theorem matchEvent_c2_counterexample :
    matchEvent c2Event [c2Sub] ≠
      (([c2Sub].filter (fun sub => claimC2Cond c2Event sub)).map
        (fun sub => mkEventMatch c2Event sub)) := by
  decide

/-- Boolean equality is false on provably distinct values. -/
theorem beq_false_of_ne {α : Type} [BEq α] [LawfulBEq α] {a b : α} (h : a ≠ b) :
    (a == b) = false :=
  Bool.eq_false_iff.mpr (fun hab => h (beq_iff_eq.mp hab))

/-- Boolean disequality is true on provably distinct values. -/
theorem bne_true_of_ne {α : Type} [BEq α] [LawfulBEq α] {a b : α} (h : a ≠ b) :
    (a != b) = true := by
  simp only [bne, beq_false_of_ne h, Bool.not_false]

/-- A string always starts with itself minus its last character: the list
`dropLast` of the characters is a prefix of the characters. -/
theorem jsStartsWith_jsDropLast_self (s : String) :
    jsStartsWith s (jsDropLast s) = true := by
  show (s.data.dropLast).isPrefixOf s.data = true
  rw [List.isPrefixOf_iff_prefix]
  exact List.dropLast_prefix s.data

/-- Boolean equality tests are symmetric. -/
theorem beq_comm' {α : Type} [BEq α] [LawfulBEq α] (a b : α) : (a == b) = (b == a) := by
  by_cases h : a = b
  · subst h
    rfl
  · rw [beq_false_of_ne h, beq_false_of_ne (Ne.symm h)]

/-- The source-filter test of the code agrees with the amended claim-C2
reading pointwise: for a non-empty sourceId, exact equality with a
trailing-`*` filter implies the wildcard stem check, so the code's
either/or branching equals the claim's disjunction. -/
theorem sourceFilterMatches_eq_spec (f : String) (si : Option String) :
    sourceFilterMatches f si = specSourceMatch f si := by
  cases si with
  | none => rfl
  | some s =>
    show (if s == "" then false
          else if jsEndsWith f ("*") then jsStartsWith s (jsDropLast f) else s == f) =
      (s != "" && (s == f || (jsEndsWith f ("*") && jsStartsWith s (jsDropLast f))))
    by_cases hs : s = ""
    · simp [hs]
    · rw [if_neg (by simp [hs])]
      rw [bne_true_of_ne hs, Bool.true_and]
      by_cases he : jsEndsWith f ("*") = true
      · rw [if_pos he, he, Bool.true_and]
        by_cases heq : s = f
        · subst heq
          simp [jsStartsWith_jsDropLast_self]
        · rw [beq_false_of_ne heq, Bool.false_or]
      · rw [if_neg he]
        simp only [Bool.not_eq_true] at he
        rw [he, Bool.false_and, Bool.or_false]

/-- The negated target guard of the code equals the amended claim-C2 target
clause. -/
theorem not_targetPersonaGuard_eq_spec (personaId : String) (tp : Option String) :
    (!(targetPersonaGuard personaId tp)) = specTargetOk personaId tp := by
  cases tp with
  | none => rfl
  | some t =>
    show (!(t != "" && t != personaId)) = (t == "" || personaId == t)
    rw [Bool.not_and]
    simp only [bne, Bool.not_not]
    rw [beq_comm' t personaId]

/-- The negated source-filter guard of the code equals the amended claim-C2
source-filter clause. -/
theorem not_sourceFilterGuard_eq_spec (sourceId : Option String) (sf : Option String) :
    (!(sourceFilterGuard sourceId sf)) = specSourceOk sourceId sf := by
  cases sf with
  | none => rfl
  | some f =>
    show (!(f != "" && !sourceFilterMatches f sourceId)) = (f == "" || specSourceMatch f sourceId)
    rw [Bool.not_and]
    simp only [bne, Bool.not_not]
    rw [sourceFilterMatches_eq_spec]

/-- Equivalence of the code's filter predicate with the amended claim-C2
predicate: clause by clause via the guard lemmas. -/
theorem matchEventCond_eq_specC2Cond (event : PersonaEvent)
    (sub : PersonaEventSubscription) :
    matchEventCond event sub = specC2Cond event sub := by
  rw [matchEventCond, specC2Cond, not_targetPersonaGuard_eq_spec,
    not_sourceFilterGuard_eq_spec]

/-- Claim C2 (amended): `matchEvent` emits exactly one `EventMatch`, in
subscription enumeration order, per subscription satisfying the claimed
conditions with "set" read as "set to a non-empty string" and the sourceId
additionally required non-empty for a wildcard match. -/
theorem matchEvent_eq_spec_filter (event : PersonaEvent)
    (subscriptions : List PersonaEventSubscription) :
    matchEvent event subscriptions =
      ((subscriptions.filter (fun sub => specC2Cond event sub)).map
        (fun sub => mkEventMatch event sub)) := by
  rw [matchEvent]
  congr 1
  exact List.filter_congr (fun sub _ => matchEventCond_eq_specC2Cond event sub)


/-- Tool-definition row (packages/shared types: `PersonaToolDefinition`);
nullable text columns are modelled as `Option String` and JS truthiness
checks treat `null` and `""` alike. -/
structure PersonaToolDefinition where
  id : String
  name : String
  category : String
  description : String
  scriptPath : Option String
  inputSchema : Option String
  outputSchema : Option String
  requiresCredentialType : Option String
  implementationGuide : Option String
  isBuiltin : Bool
  createdAt : String
  updatedAt : String
deriving Repr, DecidableEq

/-- One entry of `StructuredPrompt.customSections`. -/
structure CustomSection where
  title : Option String
  label : Option String
  name : Option String
  key : Option String
  content : Option String
deriving Repr, DecidableEq

/-- Parsed structured-prompt blob (packages/shared types: `StructuredPrompt`). -/
structure StructuredPrompt where
  identity : Option String
  instructions : Option String
  toolGuidance : Option String
  examples : Option String
  errorHandling : Option String
  customSections : Option (List CustomSection)
  webSearch : Option String
deriving Repr, DecidableEq

/-- Parsed model-profile blob (packages/shared types: `ModelProfile`). -/
structure ModelProfile where
  model : Option String
  provider : Option String
  baseUrl : Option String
  authToken : Option String
deriving Repr, DecidableEq

/-- Encrypted credential row (packages/shared types: `PersonaCredential`). -/
structure PersonaCredential where
  id : String
  name : String
  serviceType : String
  encryptedData : String
  iv : String
  tag : String
  metadata : Option String
  lastUsedAt : Option String
  createdAt : String
  updatedAt : String
deriving Repr, DecidableEq

/-- Shape of a parsed trigger `config` blob as read by the Trigger Scheduler
(`event_type`, `payload`, `cron`, `interval_seconds`). -/
structure TriggerConfig where
  event_type : Option String
  payload : Option Json
  cron : Option String
  interval_seconds : Option Nat
deriving Repr

/-- Host-language (Node.js) JSON primitives the orchestrator calls but does
not define; each field models the behavior of the host call on the
repository side (`none` models a thrown exception for the parsers). -/
structure JsonCodec where
  parse : String → Option Json
  stringify : Json → String
  stringifyPretty : Json → String
  parseStructured : String → Option StructuredPrompt
  parseProfileJson : String → Option ModelProfile
  parseFlatFields : String → Option (List (String × String))
  parseTriggerConfig : String → Option TriggerConfig

/-- Protocol paragraph constant `PROTOCOL_USER_MESSAGE` from packages/shared/src/prompt.ts. -/
def PROTOCOL_USER_MESSAGE : String :=
  "### User Message Protocol\nTo send a message to the user, output a JSON object on its own line:\n```json\n\x7b\"user_message\": \x7b\"title\": \"Optional Title\", \"content\": \"Message content here\", \"content_type\": \"info\", \"priority\": \"normal\"\x7d\x7d\n```\nFields:\n- `title` (optional): Short title for the message\n- `content` (required): The message body\n- `content_type` (optional): \"info\", \"warning\", \"error\", \"success\" (default: \"info\")\n- `priority` (optional): \"low\", \"normal\", \"high\", \"urgent\" (default: \"normal\")\n\n"

/-- Protocol paragraph constant `PROTOCOL_PERSONA_ACTION` from packages/shared/src/prompt.ts. -/
def PROTOCOL_PERSONA_ACTION : String :=
  "### Persona Action Protocol\nTo trigger an action on another persona, output a JSON object on its own line:\n```json\n\x7b\"persona_action\": \x7b\"target\": \"target-persona-id\", \"action\": \"run\", \"input\": \x7b\"key\": \"value\"\x7d\x7d\x7d\n```\nFields:\n- `target` (required): The persona ID to target\n- `action` (optional): Action to perform (default: \"run\")\n- `input` (optional): JSON data to pass to the target persona\n\n"

/-- Protocol paragraph constant `PROTOCOL_EMIT_EVENT` from packages/shared/src/prompt.ts. -/
def PROTOCOL_EMIT_EVENT : String :=
  "### Emit Event Protocol\nTo emit an event to the system event bus, output a JSON object on its own line:\n```json\n\x7b\"emit_event\": \x7b\"type\": \"task_completed\", \"data\": \x7b\"result\": \"success\", \"details\": \"...\"\x7d\x7d\x7d\n```\nFields:\n- `type` (required): Event type identifier\n- `data` (optional): Arbitrary JSON payload\n\n"

/-- Protocol paragraph constant `PROTOCOL_AGENT_MEMORY` from packages/shared/src/prompt.ts. -/
def PROTOCOL_AGENT_MEMORY : String :=
  "### Agent Memory Protocol\nTo store a memory for future reference, output a JSON object on its own line:\n```json\n\x7b\"agent_memory\": \x7b\"title\": \"Memory Title\", \"content\": \"What to remember\", \"category\": \"learning\", \"importance\": 5, \"tags\": [\"tag1\", \"tag2\"]\x7d\x7d\n```\nFields:\n- `title` (required): Short title for the memory\n- `content` (required): Detailed content to remember\n- `category` (optional): \"learning\", \"preference\", \"fact\", \"procedure\" (default: \"general\")\n- `importance` (optional): 1-10 importance rating (default: 5)\n- `tags` (optional): Array of string tags for categorization\n\n"

/-- Protocol paragraph constant `PROTOCOL_MANUAL_REVIEW` from packages/shared/src/prompt.ts. -/
def PROTOCOL_MANUAL_REVIEW : String :=
  "### Manual Review Protocol\nTo flag something for human review, output a JSON object on its own line:\n```json\n\x7b\"manual_review\": \x7b\"title\": \"Review Title\", \"description\": \"What needs review\", \"severity\": \"medium\", \"context_data\": \"relevant context\", \"suggested_actions\": [\"action1\", \"action2\"]\x7d\x7d\n```\nFields:\n- `title` (required): Short title describing the review item\n- `description` (optional): Detailed description\n- `severity` (optional): \"low\", \"medium\", \"high\", \"critical\" (default: \"medium\")\n- `context_data` (optional): Additional context string\n- `suggested_actions` (optional): Array of suggested resolution steps\n\n"

/-- Protocol paragraph constant `PROTOCOL_EXECUTION_FLOW` from packages/shared/src/prompt.ts. -/
def PROTOCOL_EXECUTION_FLOW : String :=
  "### Execution Flow Protocol\nTo declare execution flow metadata, output a JSON object on its own line:\n```json\n\x7b\"execution_flow\": \x7b\"flows\": [\x7b\"step\": 1, \"action\": \"analyze\", \"status\": \"completed\"\x7d, \x7b\"step\": 2, \"action\": \"implement\", \"status\": \"pending\"\x7d]\x7d\x7d\n```\nFields:\n- `flows` (required): JSON value describing the execution flow steps\n\n"

/-- Protocol paragraph constant `PROTOCOL_OUTCOME_ASSESSMENT` from packages/shared/src/prompt.ts. -/
def PROTOCOL_OUTCOME_ASSESSMENT : String :=
  "### Outcome Assessment Protocol\nIMPORTANT: At the very end of your execution, you MUST output an outcome assessment as the last thing before finishing:\n```json\n\x7b\"outcome_assessment\": \x7b\"accomplished\": true, \"summary\": \"Brief description of what was achieved\"\x7d\x7d\n```\nFields:\n- `accomplished` (required): true if the task was successfully completed from a business perspective, false if it could not be completed\n- `summary` (required): Brief description of the outcome\n- `blockers` (optional): List of reasons the task could not be completed (only when accomplished is false)\n\nYou MUST always output this assessment. Set accomplished to false if:\n- Required data was not available or accessible\n- External services were unreachable or returned errors that prevented task completion\n- The task requirements could not be fulfilled with the available tools\n- You could not verify the task was completed correctly\n\n"

/-- Embedding of `buildToolDocumentation` (packages/shared/src/prompt.ts). -/
def buildToolDocumentation (tool : PersonaToolDefinition) : String :=
  let doc := "### " ++ tool.name ++ "\n" ++ tool.description ++ "\n"
  let doc := doc ++ "**Category**: " ++ tool.category ++ "\n"
  let doc :=
    if !(strTruthy tool.scriptPath) then
      if strTruthy tool.implementationGuide then
        doc ++ "**Implementation Guide**:\n" ++ (tool.implementationGuide.getD "") ++ "\n"
      else
        doc ++ "**Implementation**: Use the Bash tool with `curl` to call the API. Credentials are available as environment variables (e.g. `$GOOGLE_ACCESS_TOKEN`).\n"
    else
      doc ++ "**Usage**: npx tsx \"" ++ (tool.scriptPath.getD "") ++ "\" --input \x27<JSON>\x27\n"
  let doc :=
    if strTruthy tool.inputSchema then
      doc ++ "**Input Schema**: " ++ (tool.inputSchema.getD "") ++ "\n"
    else doc
  let doc :=
    if strTruthy tool.requiresCredentialType then
      doc ++ "**Requires Credential**: " ++ (tool.requiresCredentialType.getD "") ++ " (available as env var)\n"
    else doc
  doc

/-- Nullish-coalescing chain `section.title ?? section.label ?? section.name
?? section.key` for a custom section heading. -/
def CustomSection.heading (sec : CustomSection) : Option String :=
  match sec.title with
  | some t => some t
  | none =>
    match sec.label with
    | some l => some l
    | none =>
      match sec.name with
      | some n => some n
      | none => sec.key

/-- The structured-prompt sections appended by `assemblePrompt` when the
persona's `structuredPrompt` parses. -/
def structuredSections (sp : StructuredPrompt) (prompt : String) : String :=
  let prompt :=
    if strTruthy sp.identity then
      prompt ++ "## Identity\n" ++ (sp.identity.getD "") ++ "\n\n"
    else prompt
  let prompt :=
    if strTruthy sp.instructions then
      prompt ++ "## Instructions\n" ++ (sp.instructions.getD "") ++ "\n\n"
    else prompt
  let prompt :=
    if strTruthy sp.toolGuidance then
      prompt ++ "## Tool Guidance\n" ++ (sp.toolGuidance.getD "") ++ "\n\n"
    else prompt
  let prompt :=
    if strTruthy sp.examples then
      prompt ++ "## Examples\n" ++ (sp.examples.getD "") ++ "\n\n"
    else prompt
  let prompt :=
    if strTruthy sp.errorHandling then
      prompt ++ "## Error Handling\n" ++ (sp.errorHandling.getD "") ++ "\n\n"
    else prompt
  let prompt :=
    match sp.customSections with
    | some sections =>
      sections.foldl
        (fun acc sec =>
          match sec.heading with
          | some heading =>
            if heading != "" && strTruthy sec.content then
              acc ++ "## " ++ heading ++ "\n" ++ (sec.content.getD "") ++ "\n\n"
            else acc
          | none => acc)
        prompt
    | none => prompt
  let prompt :=
    if strTruthy sp.webSearch then
      prompt ++ "## Web Search Research Prompt\n" ++
        "When performing web searches during this execution, use the following research guidance:\n\n" ++
        (sp.webSearch.getD "") ++ "\n\n"
    else prompt
  prompt

/-- The Use Case Context block appended for a truthy `_use_case` value
(the source appends to the running prompt; here the appended text is built
separately — JavaScript `+=` is associative concatenation). -/
def useCaseBlockText (uc : Json) : String :=
  let p := "## Use Case Context\n"
  let p :=
    match uc.get? "title" with
    | some (Json.str title) => p ++ "You are executing the use case: **" ++ title ++ "**\n"
    | _ => p
  let p :=
    match uc.get? "description" with
    | some (Json.str desc) => p ++ "Description: " ++ desc ++ "\n"
    | _ => p
  p ++ "Focus on this specific use case.\n\n"

/-- The Time Filter block appended for a truthy `_time_filter` value. -/
def timeFilterBlockText (tf : Json) : String :=
  let p := "## Time Filter (IMPORTANT)\n"
  let p :=
    match tf.get? "description" with
    | some (Json.str desc) => p ++ desc ++ "\n"
    | _ => p
  let p :=
    match tf.get? "field", tf.get? "default_window" with
    | some (Json.str field), some (Json.str window) =>
      p ++ "When querying data, use the \x27" ++ field ++
        "\x27 parameter to limit results to the last " ++ window ++ ". " ++
        "Do NOT fetch all historical data — only process recent items within this time window.\n"
    | _, _ => p
  p ++ "\n"

/-- The text appended for truthy input data: optional Use Case and Time
Filter blocks followed by the Input Data section with the pretty-printed
JSON. -/
def inputDataText (codec : JsonCodec) (j : Json) : String :=
  let p :=
    match j.get? "_use_case" with
    | some uc => if uc.truthy then useCaseBlockText uc else ""
    | none => ""
  let p := p ++
    (match j.get? "_time_filter" with
     | some tf => if tf.truthy then timeFilterBlockText tf else ""
     | none => "")
  p ++ "## Input Data\n```json\n" ++ codec.stringifyPretty j ++ "\n```\n\n"

/-- The input-data portion of `assemblePrompt`: appended only when the
input data is truthy (`if (inputData)`). -/
def inputDataSections (codec : JsonCodec) (inputData : Option Json)
    (prompt : String) : String :=
  match inputData with
  | some j => if j.truthy then prompt ++ inputDataText codec j else prompt
  | none => prompt

/-- The trailing EXECUTE NOW paragraph of `assemblePrompt`. -/
def executeNowTail (persona : Persona) (tools : List PersonaToolDefinition) : String :=
  let t := "## EXECUTE NOW\n" ++
    "You are " ++ persona.name ++ ". Execute your task now. Follow your instructions precisely.\n"
  let t := if tools.length > 0 then t ++ "Use available tools as needed.\n" else t
  t ++ "Respond naturally and complete the task.\n"

/-- Everything `assemblePrompt` builds before the input-data sections:
header, description, structured sections or identity fallback, tools,
execution environment, credentials, and the protocol paragraphs. -/
def assemblePromptBase (codec : JsonCodec) (persona : Persona)
    (tools : List PersonaToolDefinition)
    (credentialHints : Option (List String)) : String :=
  let prompt := "# Persona: " ++ persona.name ++ "\n\n"
  let prompt :=
    if strTruthy persona.description then
      prompt ++ "## Description\n" ++ (persona.description.getD "") ++ "\n\n"
    else prompt
  let structured : Option StructuredPrompt :=
    if strTruthy persona.structuredPrompt then
      codec.parseStructured (persona.structuredPrompt.getD "")
    else none
  let prompt :=
    match structured with
    | some sp => structuredSections sp prompt
    | none => prompt ++ "## Identity\n" ++ persona.systemPrompt ++ "\n\n"
  let prompt :=
    if tools.length > 0 then
      tools.foldl (fun acc tool => acc ++ buildToolDocumentation tool ++ "\n")
        (prompt ++ "## Available Tools\n")
    else prompt
  let prompt := prompt ++ "## Execution Environment\n" ++
    "- Platform: Linux/macOS\n" ++
    "- Available: `curl`, `node`, `npx`, `git`, `bash`\n" ++
    "- PREFER `curl` for HTTP API calls — avoid writing scripts when a single curl command works\n" ++
    "- Credentials are pre-injected as environment variables — access them with `$ENV_VAR_NAME` in curl commands\n\n"
  let prompt :=
    match credentialHints with
    | some hints =>
      if hints.length > 0 then
        let p := prompt ++ "## Available Credentials (as environment variables)\n" ++
          "These env vars are ALREADY SET in your shell — use them directly in curl commands:\n"
        let p := hints.foldl (fun acc hint => acc ++ "- " ++ hint ++ "\n") p
        p ++ "\nExample: `curl -H \"Authorization: Bearer $GOOGLE_ACCESS_TOKEN\" https://api.example.com`\n" ++
          "IMPORTANT: Do NOT check if env vars exist — they are pre-configured. Just use them.\n\n"
      else prompt
    | none => prompt
  prompt ++ "## Communication Protocols\n\n" ++
    PROTOCOL_USER_MESSAGE ++ PROTOCOL_PERSONA_ACTION ++ PROTOCOL_EMIT_EVENT ++
    PROTOCOL_AGENT_MEMORY ++ PROTOCOL_MANUAL_REVIEW ++ PROTOCOL_EXECUTION_FLOW ++
    PROTOCOL_OUTCOME_ASSESSMENT

/-- Embedding of `assemblePrompt` (packages/shared/src/prompt.ts): the
deterministic prompt builder, sections in the fixed source order; each
`if (x)` of the source is a JS truthiness test.  The running `+=` chain is
grouped as base, then input-data sections, then the EXECUTE NOW tail. -/
def assemblePrompt (codec : JsonCodec) (persona : Persona)
    (tools : List PersonaToolDefinition) (inputData : Option Json)
    (credentialHints : Option (List String)) : String :=
  inputDataSections codec inputData (assemblePromptBase codec persona tools credentialHints) ++
    executeNowTail persona tools

/-- Embedding of `parseModelProfile` (packages/shared/src/prompt.ts):
null/empty/whitespace-only input gives null, otherwise the JSON.parse
result (null when the parse throws). -/
def parseModelProfile (codec : JsonCodec) (json : Option String) : Option ModelProfile :=
  match json with
  | none => none
  | some s => if s.trim == "" then none else codec.parseProfileJson s


/-- Execution-request config (packages/shared types: `ExecRequest.config`). -/
structure ExecConfig where
  timeoutMs : Nat
  maxConcurrent : Option Nat
deriving Repr, DecidableEq

/-- Execution request (packages/shared types: `ExecRequest`); optional
fields the producer leaves out are `none`. -/
structure ExecRequest where
  executionId : String
  personaId : String
  prompt : String
  projectId : Option String
  credentialIds : Option (List String)
  inputData : Option Json
  config : ExecConfig
  triggerId : Option String
  triggerType : Option String
deriving Repr

/-- Execution record row (packages/shared types: `PersonaExecution`).
Timestamps are modelled as milliseconds (the ISO strings of the source are
order-isomorphic to them); the numeric `costUsd` is carried abstractly as a
natural number, no claim inspects it. -/
structure PersonaExecution where
  id : String
  projectId : String
  personaId : String
  triggerId : Option String
  useCaseId : Option String
  status : String
  inputData : Option String
  outputData : Option String
  claudeSessionId : Option String
  costUsd : Nat
  errorMessage : Option String
  durationMs : Option Nat
  startedAt : Option Nat
  completedAt : Option Nat
  createdAt : Nat
deriving Repr, DecidableEq

/-- Trigger row (packages/shared types: `PersonaTrigger`), timestamps in
milliseconds. -/
structure PersonaTrigger where
  id : String
  personaId : String
  triggerType : String
  config : Option String
  enabled : Bool
  lastTriggeredAt : Option Nat
  nextTriggerAt : Option Nat
  useCaseId : Option String
  createdAt : Nat
  updatedAt : Nat
deriving Repr, DecidableEq

/-- The relational store consumed by the core (orchestrator db.ts),
modelled as in-memory tables.  The persona↔tool and persona↔credential
many-to-many joins are abstracted as per-persona result lists, and the
subscription table keeps its `project_id` column (absent from the shared
TS type) as the first component of each pair. -/
structure Db where
  personas : List Persona
  toolLinks : List (String × List PersonaToolDefinition)
  credLinks : List (String × List PersonaCredential)
  events : List PersonaEvent
  subscriptions : List (String × PersonaEventSubscription)
  triggers : List PersonaTrigger
  executions : List PersonaExecution
deriving Repr

/-- db.ts `getPersona`: SELECT by primary key. -/
def getPersona (db : Db) (id : String) : Option Persona :=
  db.personas.find? (fun p => p.id == id)

/-- db.ts `getToolsForPersona`: the join result for one persona. -/
def getToolsForPersona (db : Db) (personaId : String) : List PersonaToolDefinition :=
  ((db.toolLinks.find? (fun kv => kv.1 == personaId)).map (fun kv => kv.2)).getD []

/-- db.ts `listCredentialsForPersona`: the join result for one persona. -/
def listCredentialsForPersona (db : Db) (personaId : String) : List PersonaCredential :=
  ((db.credLinks.find? (fun kv => kv.1 == personaId)).map (fun kv => kv.2)).getD []

/-- db.ts `countRunningExecutions`:
`SELECT COUNT(*) FROM persona_executions WHERE persona_id = ? AND status = 'running'`. -/
def countRunningExecutions (db : Db) (personaId : String) : Nat :=
  (db.executions.filter (fun e => e.personaId == personaId && e.status == "running")).length

/-- db.ts `getSubscriptionsByEventType`: filter by event type and, when a
truthy projectId is passed, also by project. -/
def getSubscriptionsByEventType (db : Db) (eventType : String)
    (projectId : Option String) : List PersonaEventSubscription :=
  match projectId with
  | some p =>
    if p == "" then
      (db.subscriptions.filter (fun kv => kv.2.eventType == eventType)).map (fun kv => kv.2)
    else
      (db.subscriptions.filter (fun kv => kv.2.eventType == eventType && kv.1 == p)).map
        (fun kv => kv.2)
  | none =>
    (db.subscriptions.filter (fun kv => kv.2.eventType == eventType)).map (fun kv => kv.2)

/-- db.ts `getExecution`: SELECT by primary key. -/
def getExecution (db : Db) (id : String) : Option PersonaExecution :=
  db.executions.find? (fun e => e.id == id)

/-- The update record accepted by db.ts `updateExecution`; `none` models an
absent key (column untouched). -/
structure ExecUpdates where
  status : Option String
  claudeSessionId : Option String
  costUsd : Option Nat
  errorMessage : Option String
  durationMs : Option Nat
  startedAt : Option Nat
  completedAt : Option Nat
deriving Repr, DecidableEq

/-- The empty update record. -/
def noUpdates : ExecUpdates :=
  { status := none, claudeSessionId := none, costUsd := none, errorMessage := none
    durationMs := none, startedAt := none, completedAt := none }

/-- Application of one `updateExecution` update record to a row. -/
def applyExecUpdates (row : PersonaExecution) (u : ExecUpdates) : PersonaExecution :=
  { row with
    status := match u.status with | some v => v | none => row.status
    claudeSessionId := match u.claudeSessionId with | some v => some v | none => row.claudeSessionId
    costUsd := match u.costUsd with | some v => v | none => row.costUsd
    errorMessage := match u.errorMessage with | some v => some v | none => row.errorMessage
    durationMs := match u.durationMs with | some v => some v | none => row.durationMs
    startedAt := match u.startedAt with | some v => some v | none => row.startedAt
    completedAt := match u.completedAt with | some v => some v | none => row.completedAt }

/-- db.ts `updateExecution`: UPDATE the listed columns of the row with this id. -/
def updateExecution (db : Db) (id : String) (u : ExecUpdates) : Db :=
  { db with executions := db.executions.map (fun row => if row.id == id then applyExecUpdates row u else row) }

/-- db.ts `appendOutput`:
`UPDATE persona_executions SET output_data = COALESCE(output_data, '') || ? WHERE id = ?`. -/
def appendOutput (db : Db) (id : String) (chunk : String) : Db :=
  { db with executions := db.executions.map (fun row =>
      if row.id == id then { row with outputData := some ((row.outputData.getD "") ++ chunk) } else row) }

/-- db.ts `createExecution`: INSERT a fresh row in status `queued`. -/
def createExecution (db : Db) (id personaId : String) (inputData : Option String)
    (projectId : Option String) (now : Nat) : Db :=
  { db with executions := db.executions ++
      [{ id := id
         projectId := projectId.getD "default"
         personaId := personaId
         triggerId := none
         useCaseId := none
         status := "queued"
         inputData := inputData
         outputData := none
         claudeSessionId := none
         costUsd := 0
         errorMessage := none
         durationMs := none
         startedAt := none
         completedAt := none
         createdAt := now }] }

/-- db.ts `updateEventStatus`: sets status, error message (null when not
passed) and processedAt on the event row. -/
def updateEventStatus (db : Db) (id : String) (status : String)
    (errorMessage : Option String) (now : Nat) : Db :=
  { db with events := db.events.map (fun e =>
      if e.id == id then
        { e with status := status, errorMessage := errorMessage,
                 processedAt := some (toString now) }
      else e) }

/-- The subscriptions the Event Processor queries for one event:
`getSubscriptionsByEventType(db, event.eventType, event.projectId !== 'default' ? event.projectId : undefined)`. -/
def eventSubsOf (db : Db) (event : PersonaEvent) : List PersonaEventSubscription :=
  getSubscriptionsByEventType db event.eventType
    (if event.projectId != "default" then some event.projectId else none)

/-- The matches the Event Processor computes for one event. -/
def eventMatchesOf (db : Db) (event : PersonaEvent) : List EventMatch :=
  matchEvent event (eventSubsOf db event)

/-- Outcome of processing one match inside the Event Processor loop:
failure (missing persona, or persona at its concurrency limit) or a
submitted execution request. -/
inductive MatchOutcome where
  | failedMissingPersona
  | failedConcurrency
  | submitted (request : ExecRequest)
deriving Repr

/-- The per-match body of `eventBusTick` (orchestrator eventBus.ts): load
the persona (count as failed if missing), gate on
`countRunningExecutions ≥ persona.maxConcurrent` (count as failed), parse
the payload into inputData (`{raw: payload}` on parse failure), assemble
the prompt and build the `ExecRequest` handed to `dispatcher.submit` with
a freshly minted executionId. -/
def eventBusProcessMatchAux (codec : JsonCodec) (db : Db) (freshId : String)
    (m : EventMatch) : Option Persona → MatchOutcome
  | none => .failedMissingPersona
  | some persona =>
    if persona.maxConcurrent ≤ countRunningExecutions db persona.id then
      .failedConcurrency
    else
      let inputData : Option Json :=
        match m.payload with
        | some payload =>
          if payload == "" then none
          else some ((codec.parse payload).getD (Json.obj [("raw", Json.str payload)]))
        | none => none
      let tools := getToolsForPersona db persona.id
      let prompt := assemblePrompt codec persona tools inputData none
      .submitted
        { executionId := freshId
          personaId := persona.id
          prompt := prompt
          projectId := none
          credentialIds := none
          inputData := none
          config := { timeoutMs := persona.timeoutMs, maxConcurrent := none }
          triggerId := none
          triggerType := none }

/-- The per-match body applied to the loaded persona. -/
def eventBusProcessMatch (codec : JsonCodec) (db : Db) (freshId : String)
    (m : EventMatch) : MatchOutcome :=
  eventBusProcessMatchAux codec db freshId m (getPersona db m.personaId)

/-- Whether the Event Processor counts a match as failed, by persona lookup
result: persona missing, or persona at its concurrency limit. -/
def matchFailsAux (db : Db) : Option Persona → Bool
  | none => true
  | some p => decide (p.maxConcurrent ≤ countRunningExecutions db p.id)

/-- Whether the Event Processor counts a match as failed: persona missing,
or persona at its concurrency limit. -/
def matchFails (db : Db) (m : EventMatch) : Bool :=
  matchFailsAux db (getPersona db m.personaId)

/-- The Event Processor loop over the matches of one event: returns the
`delivered` count, the `failed` count, and the submitted requests in order.
The loop reads the store as of the start of the event (submissions are
collected, not interleaved into the store). -/
def processMatches (codec : JsonCodec) (db : Db) (fresh : Nat → String) :
    Nat → List EventMatch → Nat × Nat × List ExecRequest
  | _, [] => (0, 0, [])
  | i, m :: rest =>
    let r := processMatches codec db fresh (i + 1) rest
    match eventBusProcessMatch codec db (fresh i) m with
    | .submitted req => (r.1 + 1, r.2.1, req :: r.2.2)
    | _ => (r.1, r.2.1 + 1, r.2.2)

/-- Final status written for one event by `eventBusTick` together with the
requests submitted while processing it: `skipped` when no matches,
otherwise `delivered` / `partial` / `failed` from the two counters. -/
structure EventOutcome where
  status : String
  errorMessage : Option String
  submissions : List ExecRequest
deriving Repr

/-- The final status written by `eventBusTick` from the two loop counters:
`delivered` if `failed === 0`, else `partial` if `delivered > 0`, else
`failed` with the fixed message. -/
def statusFromCounts (delivered failed : Nat) : String × Option String :=
  if failed = 0 then ("delivered", none)
  else if 0 < delivered then ("partial", none)
  else ("failed", some ("All subscription matches failed"))

/-- The per-event body of `eventBusTick`: query subscriptions, match, and
either skip or process every match and derive the final status. -/
def eventBusProcessEvent (codec : JsonCodec) (db : Db) (fresh : Nat → String)
    (event : PersonaEvent) : EventOutcome :=
  let ms := eventMatchesOf db event
  if ms.isEmpty then
    { status := "skipped", errorMessage := none, submissions := [] }
  else
    let r := processMatches codec db fresh 0 ms
    let st := statusFromCounts r.1 r.2.1
    { status := st.1, errorMessage := st.2, submissions := r.2.2 }

/-- A failing match produces one of the two failure outcomes. -/
theorem eventBusProcessMatch_of_fails (codec : JsonCodec) (db : Db) (freshId : String)
    (m : EventMatch) (h : matchFails db m = true) :
    eventBusProcessMatch codec db freshId m = .failedMissingPersona ∨
      eventBusProcessMatch codec db freshId m = .failedConcurrency := by
  unfold eventBusProcessMatch
  unfold matchFails at h
  cases hp : getPersona db m.personaId with
  | none => exact Or.inl rfl
  | some p =>
    rw [hp] at h
    simp only [matchFailsAux] at h
    simp only [eventBusProcessMatchAux]
    rw [if_pos (of_decide_eq_true h)]
    exact Or.inr rfl

/-- A non-failing match is submitted. -/
theorem eventBusProcessMatch_of_ok (codec : JsonCodec) (db : Db) (freshId : String)
    (m : EventMatch) (h : matchFails db m = false) :
    ∃ req, eventBusProcessMatch codec db freshId m = .submitted req := by
  unfold eventBusProcessMatch
  unfold matchFails at h
  cases hp : getPersona db m.personaId with
  | none => rw [hp] at h; exact absurd h (by simp [matchFailsAux])
  | some p =>
    rw [hp] at h
    simp only [matchFailsAux] at h
    simp only [eventBusProcessMatchAux]
    rw [if_neg (of_decide_eq_false h)]
    exact ⟨_, rfl⟩

/-- The loop counters are exactly the number of non-failing and failing
matches. -/
theorem processMatches_counts (codec : JsonCodec) (db : Db) (fresh : Nat → String)
    (ms : List EventMatch) :
    ∀ i : Nat,
      (processMatches codec db fresh i ms).1 =
        (ms.filter (fun m => !matchFails db m)).length ∧
      (processMatches codec db fresh i ms).2.1 =
        (ms.filter (fun m => matchFails db m)).length := by
  induction ms with
  | nil => intro i; simp [processMatches]
  | cons m rest ih =>
    intro i
    obtain ⟨ih1, ih2⟩ := ih (i + 1)
    cases hf : matchFails db m with
    | true =>
      rcases eventBusProcessMatch_of_fails codec db (fresh i) m hf with h | h <;>
        simp [processMatches, h, hf, ih1, ih2, List.filter_cons]
    | false =>
      obtain ⟨req, h⟩ := eventBusProcessMatch_of_ok codec db (fresh i) m hf
      simp [processMatches, h, hf, ih1, ih2, List.filter_cons]


/-- Claim C1: for an event processed by the tick, the final status is
`skipped` when there are no matches, `delivered` when zero matches failed,
`partial` when at least one match was delivered and at least one failed, and
`failed` with message "All subscription matches failed" when zero matches
were delivered. -/
theorem eventBusTick_status (codec : JsonCodec) (db : Db) (fresh : Nat → String)
    (event : PersonaEvent) :
    (eventMatchesOf db event = [] →
      (eventBusProcessEvent codec db fresh event).status = "skipped") ∧
    (eventMatchesOf db event ≠ [] →
      ((∀ m ∈ eventMatchesOf db event, matchFails db m = false) →
        (eventBusProcessEvent codec db fresh event).status = "delivered" ∧
        (eventBusProcessEvent codec db fresh event).errorMessage = none) ∧
      ((∃ m ∈ eventMatchesOf db event, matchFails db m = false) →
       (∃ m ∈ eventMatchesOf db event, matchFails db m = true) →
        (eventBusProcessEvent codec db fresh event).status = "partial" ∧
        (eventBusProcessEvent codec db fresh event).errorMessage = none) ∧
      ((∀ m ∈ eventMatchesOf db event, matchFails db m = true) →
        (eventBusProcessEvent codec db fresh event).status = "failed" ∧
        (eventBusProcessEvent codec db fresh event).errorMessage =
          some ("All subscription matches failed"))) := by
  obtain ⟨hd, hf⟩ := processMatches_counts codec db fresh (eventMatchesOf db event) 0
  constructor
  · intro hnil
    simp [eventBusProcessEvent, hnil]
  · intro hne
    have hisE : (eventMatchesOf db event).isEmpty = false := by
      cases hms : eventMatchesOf db event with
      | nil => exact absurd hms hne
      | cons a l => rfl
    have hred :
        eventBusProcessEvent codec db fresh event =
          { status := (statusFromCounts (processMatches codec db fresh 0 (eventMatchesOf db event)).1
              (processMatches codec db fresh 0 (eventMatchesOf db event)).2.1).1
            errorMessage := (statusFromCounts (processMatches codec db fresh 0 (eventMatchesOf db event)).1
              (processMatches codec db fresh 0 (eventMatchesOf db event)).2.1).2
            submissions := (processMatches codec db fresh 0 (eventMatchesOf db event)).2.2 } := by
      simp [eventBusProcessEvent, hisE]
    refine ⟨?_, ?_, ?_⟩
    · intro hall
      have hfil : List.filter (fun m => matchFails db m) (eventMatchesOf db event) = [] := by
        rw [List.filter_eq_nil_iff]
        intro m hm
        simp [hall m hm]
      rw [hred]
      rw [hf, hfil] at *
      simp [hf, hfil, statusFromCounts]
    · rintro ⟨m1, hm1, hok⟩ ⟨m2, hm2, hfl⟩
      have hdpos : 0 < (List.filter (fun m => !matchFails db m) (eventMatchesOf db event)).length :=
        List.length_pos_of_mem (List.mem_filter.mpr ⟨hm1, by simp [hok]⟩)
      have hfpos : 0 < (List.filter (fun m => matchFails db m) (eventMatchesOf db event)).length :=
        List.length_pos_of_mem (List.mem_filter.mpr ⟨hm2, by simp [hfl]⟩)
      rw [hred]
      rw [statusFromCounts, hd, hf]
      rw [if_neg (Nat.pos_iff_ne_zero.mp hfpos), if_pos hdpos]
      exact ⟨rfl, rfl⟩
    · intro hall
      have hdnil : List.filter (fun m => !matchFails db m) (eventMatchesOf db event) = [] := by
        rw [List.filter_eq_nil_iff]
        intro m hm
        simp [hall m hm]
      have hfpos : 0 < (List.filter (fun m => matchFails db m) (eventMatchesOf db event)).length := by
        obtain ⟨a, ha⟩ := List.exists_mem_of_ne_nil _ hne
        exact List.length_pos_of_mem (List.mem_filter.mpr ⟨ha, hall a ha⟩)
      rw [hred]
      rw [statusFromCounts, hd, hf]
      rw [if_neg (Nat.pos_iff_ne_zero.mp hfpos), hdnil]
      simp

/-- A JSON codec whose parsers always fail; used to instantiate the host
JSON parameters at concrete witness inputs that never parse anything. -/
def trivialCodec : JsonCodec :=
  { parse := fun _ => none
    stringify := fun _ => ""
    stringifyPretty := fun _ => ""
    parseStructured := fun _ => none
    parseProfileJson := fun _ => none
    parseFlatFields := fun _ => none
    parseTriggerConfig := fun _ => none }

/-- Concrete persona fixture. -/
def mkPersona (id : String) (maxConcurrent : Nat) : Persona :=
  { id := id
    projectId := "default"
    name := "Persona " ++ id
    description := none
    systemPrompt := "Do the task."
    structuredPrompt := none
    icon := none
    color := none
    enabled := true
    maxConcurrent := maxConcurrent
    timeoutMs := 300000
    modelProfile := none
    maxBudgetUsd := none
    maxTurns := none
    designContext := none
    groupId := none
    createdAt := "2026-01-01T00:00:00.000Z"
    updatedAt := "2026-01-01T00:00:00.000Z" }

/-- Concrete subscription fixture. -/
def mkSub (id personaId eventType : String) : PersonaEventSubscription :=
  { id := id
    personaId := personaId
    eventType := eventType
    sourceFilter := none
    enabled := true
    useCaseId := none
    createdAt := "2026-01-01T00:00:00.000Z"
    updatedAt := "2026-01-01T00:00:00.000Z" }

/-- Concrete event fixture. -/
def mkEvent (id eventType : String) (payload : Option String) : PersonaEvent :=
  { id := id
    projectId := "default"
    eventType := eventType
    sourceType := "webhook"
    sourceId := none
    targetPersonaId := none
    payload := payload
    status := "pending"
    errorMessage := none
    processedAt := none
    useCaseId := none
    createdAt := "2026-01-01T00:00:00.000Z" }

/-- Empty store fixture. -/
def emptyDb : Db :=
  { personas := [], toolLinks := [], credLinks := [], events := []
    subscriptions := [], triggers := [], executions := [] }

/-- Store for the C1 witness: one existing idle persona, one subscription to
it, and one subscription to a missing persona. -/
def c1Db : Db :=
  { emptyDb with
    personas := [mkPersona ("p1") 1]
    subscriptions := [("default", mkSub ("s1") ("p1") ("tick")),
                      ("default", mkSub ("s2") ("ghost") ("tick"))] }

/-- Event for the C1 witness. -/
def c1Event : PersonaEvent := mkEvent ("e1") ("tick") none

/-- Witness for C1: at the concrete store the event has two matches, one
deliverable and one failing (missing persona), and the status is `partial`. -/
theorem eventBusTick_status_witness :
    (eventBusProcessEvent trivialCodec c1Db (fun n => "id" ++ toString n) c1Event).status = "partial" ∧
    (eventBusProcessEvent trivialCodec c1Db (fun n => "id" ++ toString n) c1Event).errorMessage = none := by
  have h := eventBusTick_status trivialCodec c1Db (fun n => "id" ++ toString n) c1Event
  exact (h.2 (by decide)).2.1 (by decide) (by decide)

/-- Claim C3: a match whose persona exists and is at or above its
maxConcurrent limit at the moment the match is processed is counted as
failed (concurrency) and no execution request is submitted for it. -/
theorem eventBus_concurrency_gate (codec : JsonCodec) (db : Db) (freshId : String)
    (m : EventMatch) (p : Persona)
    (hp : getPersona db m.personaId = some p)
    (hc : p.maxConcurrent ≤ countRunningExecutions db p.id) :
    eventBusProcessMatch codec db freshId m = .failedConcurrency ∧
      matchFails db m = true ∧
      ∀ req, eventBusProcessMatch codec db freshId m ≠ .submitted req := by
  have h1 : eventBusProcessMatch codec db freshId m = .failedConcurrency := by
    unfold eventBusProcessMatch
    rw [hp]
    simp only [eventBusProcessMatchAux]
    rw [if_pos hc]
  refine ⟨h1, ?_, ?_⟩
  · unfold matchFails
    rw [hp]
    simp [matchFailsAux, hc]
  · intro req hreq
    rw [h1] at hreq
    exact MatchOutcome.noConfusion hreq

/-- One running execution row for the C3 witness persona. -/
def c3RunningRow : PersonaExecution :=
  { id := "x1"
    projectId := "default"
    personaId := "p1"
    triggerId := none
    useCaseId := none
    status := "running"
    inputData := none
    outputData := none
    claudeSessionId := none
    costUsd := 0
    errorMessage := none
    durationMs := none
    startedAt := some 0
    completedAt := none
    createdAt := 0 }

/-- Store for the C3 witness: persona `p1` with maxConcurrent 1 and one
running execution. -/
def c3Db : Db :=
  { emptyDb with
    personas := [mkPersona ("p1") 1]
    executions := [c3RunningRow] }

/-- Match for the C3 witness. -/
def c3Match : EventMatch :=
  { eventId := "e1"
    eventType := "tick"
    subscriptionId := "s1"
    personaId := "p1"
    payload := none
    sourceId := none
    useCaseId := none }

/-- Witness for C3: at the concrete store the persona is at its limit and
the match produces the concurrency failure outcome. -/
theorem eventBus_concurrency_gate_witness :
    eventBusProcessMatch trivialCodec c3Db ("id0") c3Match = .failedConcurrency :=
  (eventBus_concurrency_gate trivialCodec c3Db ("id0") c3Match (mkPersona ("p1") 1)
    (by decide) (by decide)).1



/-- Assignment config sent in an assign frame. -/
structure AssignConfig where
  timeoutMs : Nat
  maxOutputBytes : Nat
deriving Repr, DecidableEq

/-- Assign frame (packages/shared protocol: `ExecAssign`, minus the
constant `type` tag carried by the constructor below). -/
structure ExecAssign where
  executionId : String
  personaId : String
  prompt : String
  env : List (String × String)
  config : AssignConfig
deriving Repr, DecidableEq

/-- Frames sent from the orchestrator to a worker (packages/shared
protocol: `OrchestratorMessage`). -/
inductive OrchestratorMessage where
  | ack (workerId sessionToken : String)
  | assign (a : ExecAssign)
  | cancel (executionId : String)
  | shutdownFrame (reason : String) (gracePeriodMs : Nat)
  | heartbeat (timestamp : Nat)
deriving Repr, DecidableEq

/-- Frames received from a worker (packages/shared protocol:
`WorkerMessage`). -/
inductive WorkerMessage where
  | hello (workerId version : String) (capabilities : List String)
  | ready
  | stdout (executionId chunk : String) (timestamp : Nat)
  | stderr (executionId chunk : String) (timestamp : Nat)
  | complete (executionId status : String) (exitCode : Int) (durationMs : Nat)
      (sessionId : Option String) (totalCostUsd : Option Nat)
  | event (executionId eventType : String) (payload : Json)
  | heartbeat (timestamp : Nat)
deriving Repr

/-- Worker session info (packages/shared types: `WorkerInfo`). -/
structure WorkerInfo where
  workerId : String
  status : String
  version : String
  capabilities : List String
  currentExecutionId : Option String
  connectedAt : Nat
  lastHeartbeat : Nat
deriving Repr, DecidableEq

/-- One worker map entry (workerPool.ts `WorkerEntry`): the WebSocket is
modelled by a transport id and an open flag (`readyState === OPEN`); the
heartbeat timer's firing is modelled by `heartbeatTick` below. -/
structure WorkerEntry where
  transportId : Nat
  wsOpen : Bool
  info : WorkerInfo
deriving Repr, DecidableEq

/-- Notifications emitted by the Worker Pool on its event emitter. -/
inductive PoolEvent where
  | workerConnected (info : WorkerInfo)
  | workerReady (workerId : String)
  | stdoutEvt (workerId : String) (msg : WorkerMessage)
  | stderrEvt (workerId : String) (msg : WorkerMessage)
  | completeEvt (workerId : String) (msg : WorkerMessage)
  | personaEvent (workerId : String) (msg : WorkerMessage)
  | workerDisconnected (workerId : String) (executionId : Option String)
deriving Repr

/-- Worker Pool state: the worker map (insertion-ordered, as a JS Map),
the frames successfully sent, the `ws.close(code, reason)` calls made,
and the emitted notifications. -/
structure PoolState where
  workers : List (String × WorkerEntry)
  sentFrames : List (String × OrchestratorMessage)
  closedTransports : List (Nat × String)
  emitted : List PoolEvent
deriving Repr

/-- Lookup in an insertion-ordered string-keyed map (JS `Map.get`). -/
def mapGet {α : Type} (l : List (String × α)) (k : String) : Option α :=
  (l.find? (fun kv => kv.1 == k)).map (fun kv => kv.2)

/-- Insertion or in-place replacement (JS `Map.set`). -/
def mapSet {α : Type} (l : List (String × α)) (k : String) (v : α) : List (String × α) :=
  match l with
  | [] => [(k, v)]
  | kv :: rest => if kv.1 == k then (k, v) :: rest else kv :: mapSet rest k v

/-- Removal by key (JS `Map.delete`). -/
def mapDelete {α : Type} (l : List (String × α)) (k : String) : List (String × α) :=
  l.filter (fun kv => kv.1 != k)

/-- `Map.set` then `Map.get` at the same key yields the new value. -/
theorem mapGet_mapSet_self {α : Type} (l : List (String × α)) (k : String) (v : α) :
    mapGet (mapSet l k v) k = some v := by
  induction l with
  | nil => simp [mapGet, mapSet, List.find?]
  | cons kv rest ih =>
    by_cases hk : kv.1 = k
    · simp [mapSet, hk, mapGet, List.find?]
    · simp only [mapSet, beq_false_of_ne hk, Bool.false_eq_true, if_false]
      simp only [mapGet, List.find?, beq_false_of_ne hk] at *
      exact ih

/-- `Map.delete` then `Map.get` at the same key yields nothing. -/
theorem mapGet_mapDelete_self {α : Type} (l : List (String × α)) (k : String) :
    mapGet (mapDelete l k) k = none := by
  induction l with
  | nil => rfl
  | cons kv rest ih =>
    by_cases hk : kv.1 = k
    · simp only [mapDelete, List.filter, bne, hk, beq_self_eq_true, Bool.not_true]
      simp only [mapDelete] at ih
      exact ih
    · simp only [mapDelete, List.filter, bne, beq_false_of_ne hk, Bool.not_false]
      simp only [mapGet, List.find?, beq_false_of_ne hk] at *
      simp only [mapDelete] at ih
      exact ih

/-- Heartbeat timer interval (workerPool.ts `HEARTBEAT_INTERVAL_MS`). -/
def HEARTBEAT_INTERVAL_MS : Nat := 30000

/-- Heartbeat timeout (workerPool.ts `HEARTBEAT_TIMEOUT_MS`). -/
def HEARTBEAT_TIMEOUT_MS : Nat := 90000

namespace WorkerPool

/-- workerPool.ts `send`: false when the worker is missing or its transport
is not open; otherwise the frame is recorded as sent. -/
def send (st : PoolState) (workerId : String) (msg : OrchestratorMessage) :
    PoolState × Bool :=
  match mapGet st.workers workerId with
  | none => (st, false)
  | some entry =>
    if entry.wsOpen then
      ({ st with sentFrames := st.sentFrames ++ [(workerId, msg)] }, true)
    else (st, false)

/-- workerPool.ts `assign`: requires an idle worker; sets `executing` state
and `currentExecutionId`, then sends the frame; the state mutation persists
even when the send fails (the caller sees only the boolean). -/
def assign (st : PoolState) (workerId : String) (assignment : ExecAssign) :
    PoolState × Bool :=
  match mapGet st.workers workerId with
  | none => (st, false)
  | some entry =>
    if entry.info.status != "idle" then (st, false)
    else
      let entry2 := { entry with info := { entry.info with
        status := "executing", currentExecutionId := some assignment.executionId } }
      let st2 := { st with workers := mapSet st.workers workerId entry2 }
      send st2 workerId (.assign assignment)

/-- workerPool.ts `getIdleWorker`: the first idle session in iteration
order, if any. -/
def getIdleWorker (st : PoolState) : Option String :=
  (st.workers.find? (fun kv => kv.2.info.status == "idle")).map (fun kv => kv.1)

/-- workerPool.ts `registerWorker`: evict any prior session with the same
workerId (close its transport with the going-away reason, delete it), then
install a fresh idle session with `lastHeartbeat = now`, send `ack`, and
publish worker-connected. -/
def registerWorker (st : PoolState) (now : Nat) (workerId : String)
    (transportId : Nat) (wsOpen : Bool) (version : String)
    (capabilities : List String) : PoolState :=
  let st1 :=
    match mapGet st.workers workerId with
    | some existing =>
      { st with
        closedTransports := st.closedTransports ++
          [(existing.transportId, "Replaced by new connection")]
        workers := mapDelete st.workers workerId }
    | none => st
  let info : WorkerInfo :=
    { workerId := workerId, status := "idle", version := version
      capabilities := capabilities, currentExecutionId := none
      connectedAt := now, lastHeartbeat := now }
  let entry : WorkerEntry := { transportId := transportId, wsOpen := wsOpen, info := info }
  let st2 := { st1 with workers := mapSet st1.workers workerId entry }
  let st3 := (send st2 workerId (.ack workerId ("session-" ++ toString now))).1
  { st3 with emitted := st3.emitted ++ [.workerConnected info] }

/-- workerPool.ts `unregisterWorker`: remove whatever session is registered
under the workerId and publish worker-disconnected with its
currentExecutionId. -/
def unregisterWorker (st : PoolState) (workerId : String) : PoolState :=
  match mapGet st.workers workerId with
  | none => st
  | some entry =>
    { st with
      workers := mapDelete st.workers workerId
      emitted := st.emitted ++ [.workerDisconnected workerId entry.info.currentExecutionId] }

/-- workerPool.ts `handleWorkerMessage`: the routing switch.  Only a
`heartbeat` frame touches `lastHeartbeat`; `ready`/`complete` reset the
session to idle; `stdout`/`stderr`/`event` are republished; a `hello`
reaching the switch falls through to the unknown-type log-and-drop. -/
def handleWorkerMessage (st : PoolState) (now : Nat) (workerId : String)
    (msg : WorkerMessage) : PoolState :=
  match mapGet st.workers workerId with
  | none => st
  | some entry =>
    match msg with
    | .heartbeat _ =>
      let entry2 := { entry with info := { entry.info with lastHeartbeat := now } }
      { st with workers := mapSet st.workers workerId entry2 }
    | .ready =>
      let entry2 := { entry with info := { entry.info with status := "idle", currentExecutionId := none } }
      let st2 := { st with workers := mapSet st.workers workerId entry2 }
      { st2 with emitted := st2.emitted ++ [.workerReady workerId] }
    | .stdout e c t =>
      { st with emitted := st.emitted ++ [.stdoutEvt workerId (.stdout e c t)] }
    | .stderr e c t =>
      { st with emitted := st.emitted ++ [.stderrEvt workerId (.stderr e c t)] }
    | .complete e s x d sid cost =>
      let entry2 := { entry with info := { entry.info with status := "idle", currentExecutionId := none } }
      let st2 := { st with workers := mapSet st.workers workerId entry2 }
      { st2 with emitted := st2.emitted ++ [.completeEvt workerId (.complete e s x d sid cost)] }
    | .event e t p =>
      { st with emitted := st.emitted ++ [.personaEvent workerId (.event e t p)] }
    | .hello _ _ _ => st

/-- One firing of a session heartbeat timer (workerPool.ts): close the
transport when `now - lastHeartbeat > HEARTBEAT_TIMEOUT_MS`, otherwise
send a heartbeat frame. -/
def heartbeatTick (st : PoolState) (now : Nat) (workerId : String) : PoolState :=
  match mapGet st.workers workerId with
  | none => st
  | some entry =>
    if HEARTBEAT_TIMEOUT_MS < now - entry.info.lastHeartbeat then
      { st with closedTransports := st.closedTransports ++
          [(entry.transportId, "Heartbeat timeout")] }
    else (send st workerId (.heartbeat now)).1

/-- The `ws.on('close')` handler installed by `handleConnection`: when the
connection had completed a hello as `workerId`, call
`unregisterWorker(workerId)` — regardless of whether the currently
registered session still belongs to this transport. -/
def onTransportClose (st : PoolState) (helloWorkerId : Option String) : PoolState :=
  match helloWorkerId with
  | some wid => unregisterWorker st wid
  | none => st

end WorkerPool

/-- The empty pool. -/
def emptyPool : PoolState :=
  { workers := [], sentFrames := [], closedTransports := [], emitted := [] }

/-- Is a pool event a worker-disconnected notification for this workerId. -/
def isDisconnectFor (workerId : String) : PoolEvent → Bool
  | .workerDisconnected wid _ => wid == workerId
  | _ => false

/-- Pool after transport 1 says hello as `w1`. -/
def c10Pool1 : PoolState :=
  WorkerPool.registerWorker emptyPool 0 ("w1") 1 true ("1.0.0") []

/-- Pool after transport 2 also says hello as `w1`: transport 1 is closed
with the going-away reason and evicted, transport 2's session installed. -/
def c10Pool2 : PoolState :=
  WorkerPool.registerWorker c10Pool1 5 ("w1") 2 true ("1.0.0") []

/-- Pool after transport 1's close event fires. -/
def c10Pool3 : PoolState :=
  WorkerPool.onTransportClose c10Pool2 (some ("w1"))

/-- Claim C10: after a duplicate hello replaces the session, processing the
replaced transport's close event unregisters whatever is currently
registered under the workerId — the step sequence register(t1),
register(t2), close(t1) leaves no session for `w1`, publishes a
worker-disconnected notification for it, and has only transport 1 (never
transport 2) among the closed transports. -/
theorem duplicate_hello_close_race :
    mapGet c10Pool3.workers ("w1") = none ∧
    (c10Pool3.emitted.filter (fun e => isDisconnectFor ("w1") e)).length = 1 ∧
    c10Pool3.closedTransports = [(1, "Replaced by new connection")] := by
  refine ⟨by decide, ?_, by decide⟩
  decide


/-- Is a worker frame a heartbeat. -/
def WorkerMessage.isHeartbeat : WorkerMessage → Bool
  | .heartbeat _ => true
  | _ => false

/-- Claim C7 (amended): for a registered worker, handling a frame updates
`lastHeartbeat` to the current time only when the frame is a `heartbeat`;
every other well-formed frame (ready, stdout, stderr, complete, event)
leaves `lastHeartbeat` unchanged, so a worker that streams only
non-heartbeat frames can still be closed by the heartbeat-timeout check. -/
theorem handleWorkerMessage_lastHeartbeat (st : PoolState) (now : Nat)
    (workerId : String) (msg : WorkerMessage) (entry : WorkerEntry)
    (h : mapGet st.workers workerId = some entry) :
    ∃ entry2,
      mapGet (WorkerPool.handleWorkerMessage st now workerId msg).workers workerId =
        some entry2 ∧
      entry2.info.lastHeartbeat =
        (if msg.isHeartbeat then now else entry.info.lastHeartbeat) := by
  cases msg with
  | heartbeat t =>
    have hred : (WorkerPool.handleWorkerMessage st now workerId (.heartbeat t)).workers =
        mapSet st.workers workerId { entry with info := { entry.info with lastHeartbeat := now } } := by
      unfold WorkerPool.handleWorkerMessage
      rw [h]
    refine ⟨{ entry with info := { entry.info with lastHeartbeat := now } }, ?_, ?_⟩
    · rw [hred]
      exact mapGet_mapSet_self st.workers workerId _
    · simp [WorkerMessage.isHeartbeat]
  | ready =>
    have hred : (WorkerPool.handleWorkerMessage st now workerId .ready).workers =
        mapSet st.workers workerId { entry with info := { entry.info with status := "idle", currentExecutionId := none } } := by
      unfold WorkerPool.handleWorkerMessage
      rw [h]
    refine ⟨{ entry with info := { entry.info with status := "idle", currentExecutionId := none } }, ?_, ?_⟩
    · rw [hred]
      exact mapGet_mapSet_self st.workers workerId _
    · simp [WorkerMessage.isHeartbeat]
  | complete e s x d sid cost =>
    have hred : (WorkerPool.handleWorkerMessage st now workerId (.complete e s x d sid cost)).workers =
        mapSet st.workers workerId { entry with info := { entry.info with status := "idle", currentExecutionId := none } } := by
      unfold WorkerPool.handleWorkerMessage
      rw [h]
    refine ⟨{ entry with info := { entry.info with status := "idle", currentExecutionId := none } }, ?_, ?_⟩
    · rw [hred]
      exact mapGet_mapSet_self st.workers workerId _
    · simp [WorkerMessage.isHeartbeat]
  | stdout e c t =>
    have hred : (WorkerPool.handleWorkerMessage st now workerId (.stdout e c t)).workers = st.workers := by
      unfold WorkerPool.handleWorkerMessage
      rw [h]
    exact ⟨entry, by rw [hred]; exact h, by simp [WorkerMessage.isHeartbeat]⟩
  | stderr e c t =>
    have hred : (WorkerPool.handleWorkerMessage st now workerId (.stderr e c t)).workers = st.workers := by
      unfold WorkerPool.handleWorkerMessage
      rw [h]
    exact ⟨entry, by rw [hred]; exact h, by simp [WorkerMessage.isHeartbeat]⟩
  | event e t p =>
    have hred : (WorkerPool.handleWorkerMessage st now workerId (.event e t p)).workers = st.workers := by
      unfold WorkerPool.handleWorkerMessage
      rw [h]
    exact ⟨entry, by rw [hred]; exact h, by simp [WorkerMessage.isHeartbeat]⟩
  | hello w v caps =>
    have hred : (WorkerPool.handleWorkerMessage st now workerId (.hello w v caps)).workers = st.workers := by
      unfold WorkerPool.handleWorkerMessage
      rw [h]
    exact ⟨entry, by rw [hred]; exact h, by simp [WorkerMessage.isHeartbeat]⟩

/-- Entry of the C7 pool fixtures after registration at time 0. -/
def c7Entry : WorkerEntry :=
  { transportId := 1
    wsOpen := true
    info :=
      { workerId := "w1"
        status := "idle"
        version := "1.0.0"
        capabilities := []
        currentExecutionId := none
        connectedAt := 0
        lastHeartbeat := 0 } }

/-- Pool with one worker registered at time 0. -/
def c7Pool1 : PoolState :=
  WorkerPool.registerWorker emptyPool 0 ("w1") 1 true ("1.0.0") []

/-- Pool after the worker sends a stdout frame at time 100000. -/
def c7Pool2 : PoolState :=
  WorkerPool.handleWorkerMessage c7Pool1 100000 ("w1") (.stdout ("e1") ("hi") 100000)

/-- Claim C7 counterexample: a stdout frame handled at time 100000 leaves
`lastHeartbeat` at its registration value 0 (the claim says it becomes the
current time), and the next heartbeat tick at that time closes the
transport — so a worker sending only non-heartbeat frames is not kept
alive. -/
theorem handleWorkerMessage_c7_counterexample :
    ((mapGet c7Pool2.workers ("w1")).map (fun e => e.info.lastHeartbeat)) = some 0 ∧
    (WorkerPool.heartbeatTick c7Pool2 100000 ("w1")).closedTransports =
      [(1, "Heartbeat timeout")] := by
  refine ⟨by decide, by decide⟩

/-- Witness for the amended C7 theorem: at the concrete registered pool a
heartbeat frame at time 5000 sets `lastHeartbeat` to 5000. -/
theorem handleWorkerMessage_lastHeartbeat_witness :
    ∃ entry2,
      mapGet (WorkerPool.handleWorkerMessage c7Pool1 5000 ("w1") (.heartbeat 5000)).workers ("w1") =
        some entry2 ∧
      entry2.info.lastHeartbeat = 5000 := by
  obtain ⟨e2, he, hl⟩ :=
    handleWorkerMessage_lastHeartbeat c7Pool1 5000 ("w1") (.heartbeat 5000) c7Entry (by decide)
  exact ⟨e2, he, hl⟩


/-- One message produced onto the external bus by the Dispatcher handlers
modelled here (`kafka.produce(TOPICS.EXEC_OUTPUT, …, executionId)`). -/
inductive BusMessage where
  | execOutput (executionId chunk : String) (timestamp : Nat)
deriving Repr, DecidableEq

/-- The topic a produced message goes to. -/
def BusMessage.topic : BusMessage → String
  | .execOutput _ _ _ => "persona.output.v1"

/-- The key a produced message is keyed by. -/
def BusMessage.key : BusMessage → String
  | .execOutput e _ _ => e

/-- In-memory record of an in-flight execution (dispatcher.ts
`ActiveExecution`). -/
structure ActiveExecution where
  workerId : String
  startedAt : Nat
  output : List String
  status : String
  completedAt : Option Nat
  exitCode : Option Int
  durationMs : Option Nat
  sessionId : Option String
  totalCostUsd : Option Nat
deriving Repr, DecidableEq

/-- Dispatcher state (dispatcher.ts): the FIFO queue of
`{request, receivedAt}` pairs, the `active` map, the optional database
handle, and the messages produced onto the external bus. -/
structure DispatcherState where
  queue : List (ExecRequest × Nat)
  active : List (String × ActiveExecution)
  db : Option Db
  produced : List BusMessage
deriving Repr

/-- Ambient collaborators of `dispatchToWorker`: the JSON codec, the OAuth
token (the result of `getValidAccessToken()` when `oauth?.hasTokens()`),
the token manager's stored token, the credential decryption primitive
(`none` models a decrypt throw), whether a master key is configured, and
the current time. -/
structure DispatchContext where
  codec : JsonCodec
  oauthToken : Option String
  storedToken : Option String
  decryptCred : PersonaCredential → Option String
  masterKeySet : Bool
  now : Nat

/-- The token chosen by `dispatchToWorker`: the OAuth token when present,
else the stored fallback. -/
def claudeTokenOf (ctx : DispatchContext) : Option String :=
  match ctx.oauthToken with
  | some t => some t
  | none => ctx.storedToken

/-- Dispatcher stdout handler (dispatcher.ts): append the chunk to the
active entry's output when present, persist it to the execution record
with a trailing newline (best effort), and produce an `EXEC_OUTPUT`
message keyed by executionId. -/
def onStdout (st : DispatcherState) (executionId chunk : String)
    (timestamp : Nat) : DispatcherState :=
  let st1 :=
    match mapGet st.active executionId with
    | some exec =>
      let exec2 := { exec with output := exec.output ++ [chunk] }
      { st with active := mapSet st.active executionId exec2 }
    | none => st
  let st2 :=
    match st1.db with
    | some d => { st1 with db := some (appendOutput d executionId (chunk ++ "\n")) }
    | none => st1
  { st2 with produced := st2.produced ++ [.execOutput executionId chunk timestamp] }

/-- Dispatcher stderr handler (dispatcher.ts): append the `[STDERR] `-
prefixed chunk to the active entry's output when present and persist it to
the execution record; unlike stdout, nothing is produced onto the bus (a
warning is logged instead). -/
def onStderr (st : DispatcherState) (executionId chunk : String)
    (_timestamp : Nat) : DispatcherState :=
  let st1 :=
    match mapGet st.active executionId with
    | some exec =>
      let exec2 := { exec with output := exec.output ++ [("[STDERR] " ++ chunk)] }
      { st with active := mapSet st.active executionId exec2 }
    | none => st
  match st1.db with
  | some d => { st1 with db := some (appendOutput d executionId ("[STDERR] " ++ chunk ++ "\n")) }
  | none => st1

/-- Claim C8 (amended): a stderr frame gets the stdout treatment for the
in-memory buffer and the persisted record, chunk prefixed `[STDERR] `, but
no `EXEC_OUTPUT` message is produced onto the external bus. -/
theorem onStderr_behavior (st : DispatcherState) (executionId chunk : String)
    (timestamp : Nat) (exec : ActiveExecution) (d : Db)
    (hact : mapGet st.active executionId = some exec) (hdb : st.db = some d) :
    mapGet (onStderr st executionId chunk timestamp).active executionId =
      some { exec with output := exec.output ++ [("[STDERR] " ++ chunk)] } ∧
    (onStderr st executionId chunk timestamp).db =
      some (appendOutput d executionId ("[STDERR] " ++ chunk ++ "\n")) ∧
    (onStderr st executionId chunk timestamp).produced = st.produced := by
  unfold onStderr
  rw [hact]
  simp only
  rw [hdb]
  refine ⟨?_, rfl, rfl⟩
  exact mapGet_mapSet_self st.active executionId _

/-- Fixture active entry for the C8 statements. -/
def c8Exec : ActiveExecution :=
  { workerId := "w1", startedAt := 0, output := [], status := "running"
    completedAt := none, exitCode := none, durationMs := none
    sessionId := none, totalCostUsd := none }

/-- Fixture dispatcher state for the C8 statements: one active execution,
no database handle, nothing produced yet. -/
def c8St : DispatcherState :=
  { queue := [], active := [("e1", c8Exec)], db := none, produced := [] }

/-- Claim C8 counterexample: a stderr frame for an active execution appends
the prefixed chunk but produces nothing onto the external bus, while the
stdout handler on the same state does produce an `EXEC_OUTPUT` message —
refuting the claim that stderr also emits one. -/
theorem onStderr_no_bus_counterexample :
    (onStderr c8St ("e1") ("boom") 7).produced = [] ∧
    (onStdout c8St ("e1") ("boom") 7).produced = [BusMessage.execOutput ("e1") ("boom") 7] ∧
    mapGet (onStderr c8St ("e1") ("boom") 7).active ("e1") =
      some { c8Exec with output := [("[STDERR] boom")] } := by
  refine ⟨by decide, by decide, by decide⟩

/-- Fixture database for the C8 witness: one execution row. -/
def c8Row : PersonaExecution :=
  { id := "e1", projectId := "default", personaId := "p1", triggerId := none
    useCaseId := none, status := "running", inputData := none, outputData := none
    claudeSessionId := none, costUsd := 0, errorMessage := none, durationMs := none
    startedAt := some 0, completedAt := none, createdAt := 0 }

/-- Fixture dispatcher state with a database for the C8 witness. -/
def c8StDb : DispatcherState :=
  { c8St with db := some { emptyDb with executions := [c8Row] } }

/-- Witness for the amended C8 theorem at the concrete state. -/
theorem onStderr_behavior_witness :
    mapGet (onStderr c8StDb ("e1") ("boom") 7).active ("e1") =
      some { c8Exec with output := [("[STDERR] boom")] } ∧
    (onStderr c8StDb ("e1") ("boom") 7).db =
      some (appendOutput { emptyDb with executions := [c8Row] } ("e1") ("[STDERR] boom\n")) ∧
    (onStderr c8StDb ("e1") ("boom") 7).produced = [] := by
  obtain ⟨h1, h2, h3⟩ :=
    onStderr_behavior c8StDb ("e1") ("boom") 7 c8Exec { emptyDb with executions := [c8Row] }
      (by decide) rfl
  exact ⟨h1, h2, h3⟩


/-- Uppercase-and-underscore mapping
`s.toUpperCase().replace(/[^A-Z0-9]/g, '_')` used for credential env
names. -/
def envNamePart (s : String) : String :=
  String.mk (s.data.map (fun c =>
    let u := c.toUpper
    if u.isUpper || u.isDigit then u else '_'))

/-- The credential loop of `dispatchToWorker`: for every bound credential,
push `CONNECTOR_<NAME>` onto the hints; when a master key is configured,
decrypt and inject either each flat JSON field as
`CONNECTOR_<NAME>_<FIELD>` or the whole plaintext under the base name
(decryption failures are logged and skipped). -/
def credentialEnvLoop (ctx : DispatchContext) (creds : List PersonaCredential)
    (env : List (String × String)) : List String × List (String × String) :=
  match creds with
  | [] => ([], env)
  | cred :: rest =>
    let envName := "CONNECTOR_" ++ envNamePart cred.name
    let env2 :=
      if ctx.masterKeySet then
        match ctx.decryptCred cred with
        | some plain =>
          match ctx.codec.parseFlatFields plain with
          | some fields =>
            fields.foldl (fun acc kv =>
              mapSet acc ("CONNECTOR_" ++ envNamePart cred.name ++ "_" ++ envNamePart kv.1) kv.2) env
          | none => mapSet env envName plain
        | none => env
      else env
    let r := credentialEnvLoop ctx rest env2
    (envName :: r.1, r.2)

/-- The model-profile provider switch of `dispatchToWorker`: ollama /
litellm / custom override base-URL and auth-token env vars and remove the
default bearer env var. -/
def applyProfileEnv (profile : Option ModelProfile)
    (env : List (String × String)) : List (String × String) :=
  match profile with
  | some p =>
    match p.provider with
    | some provider =>
      if provider == "" then env
      else if provider == "ollama" then
        let env1 := match p.baseUrl with
          | some u => if u != "" then mapSet env ("OLLAMA_BASE_URL") u else env
          | none => env
        let env2 := match p.authToken with
          | some t => if t != "" then mapSet env1 ("OLLAMA_API_KEY") t else env1
          | none => env1
        mapDelete env2 ("ANTHROPIC_API_KEY")
      else if provider == "litellm" then
        let env1 := match p.baseUrl with
          | some u => if u != "" then mapSet env ("ANTHROPIC_BASE_URL") u else env
          | none => env
        let env2 := match p.authToken with
          | some t => if t != "" then mapSet env1 ("ANTHROPIC_AUTH_TOKEN") t else env1
          | none => env1
        mapDelete env2 ("ANTHROPIC_API_KEY")
      else if provider == "custom" then
        let env1 := match p.baseUrl with
          | some u => if u != "" then mapSet env ("OPENAI_BASE_URL") u else env
          | none => env
        let env2 := match p.authToken with
          | some t => if t != "" then mapSet env1 ("OPENAI_API_KEY") t else env1
          | none => env1
        mapDelete env2 ("ANTHROPIC_API_KEY")
      else env
    | none => env
  | none => env

/-- The prompt and env computed by `dispatchToWorker` once a token is in
hand: when a database is set and the persona is stored, reassemble the
prompt from the persona, its tools, `request.inputData` (a truthiness
test) and the credential hints, and apply the model-profile overrides;
otherwise keep `request.prompt`. -/
def dispatchPromptEnv (ctx : DispatchContext) (db? : Option Db)
    (request : ExecRequest) (token : String) : String × List (String × String) :=
  let env0 : List (String × String) := [("ANTHROPIC_API_KEY", token)]
  match db? with
  | none => (request.prompt, env0)
  | some d =>
    match getPersona d request.personaId with
    | none => (request.prompt, env0)
    | some persona =>
      let tools := getToolsForPersona d persona.id
      let creds := listCredentialsForPersona d persona.id
      let r := credentialEnvLoop ctx creds env0
      let inputData : Option Json :=
        match request.inputData with
        | some j => if j.truthy then some j else none
        | none => none
      let prompt := assemblePrompt ctx.codec persona tools inputData
        (if r.1.length > 0 then some r.1 else none)
      let profile := parseModelProfile ctx.codec persona.modelProfile
      (prompt, applyProfileEnv profile r.2)

/-- The fresh active entry inserted by `dispatchToWorker`. -/
def newActiveEntry (workerId : String) (now : Nat) : ActiveExecution :=
  { workerId := workerId, startedAt := now, output := [], status := "running"
    completedAt := none, exitCode := none, durationMs := none
    sessionId := none, totalCostUsd := none }

/-- Embedding of `dispatchToWorker` (orchestrator dispatcher.ts): acquire a
token (or re-queue at the head), build env and prompt, insert the active
entry, mark the record running, and `pool.assign`; on assign failure,
remove the active entry, revert the record to `queued`, and re-queue the
request at the head of the queue. -/
def dispatchToWorker (ctx : DispatchContext) (pool : PoolState)
    (st : DispatcherState) (workerId : String) (request : ExecRequest) :
    DispatcherState × PoolState :=
  match claudeTokenOf ctx with
  | none => ({ st with queue := (request, ctx.now) :: st.queue }, pool)
  | some token =>
    let pe := dispatchPromptEnv ctx st.db request token
    let assignment : ExecAssign :=
      { executionId := request.executionId
        personaId := request.personaId
        prompt := pe.1
        env := pe.2
        config :=
          { timeoutMs := if request.config.timeoutMs = 0 then 300000 else request.config.timeoutMs
            maxOutputBytes := 10485760 } }
    let st1 := { st with active := mapSet st.active request.executionId (newActiveEntry workerId ctx.now) }
    let st2 :=
      match st1.db with
      | some d =>
        { st1 with db := some (updateExecution d request.executionId
            { noUpdates with status := some ("running"), startedAt := some ctx.now }) }
      | none => st1
    let ares := WorkerPool.assign pool workerId assignment
    if ares.2 then (st2, ares.1)
    else
      let st3 := { st2 with active := mapDelete st2.active request.executionId }
      let st4 :=
        match st3.db with
        | some d =>
          { st3 with db := some (updateExecution d request.executionId
              { noUpdates with status := some ("queued") }) }
        | none => st3
      ({ st4 with queue := (request, ctx.now) :: st4.queue }, ares.1)

/-- Embedding of `processQueue` (orchestrator dispatcher.ts): return when
the queue is empty or no worker is idle; otherwise pop the head and
dispatch it. -/
def processQueue (ctx : DispatchContext) (pool : PoolState)
    (st : DispatcherState) : DispatcherState × PoolState :=
  match st.queue with
  | [] => (st, pool)
  | item :: rest =>
    match WorkerPool.getIdleWorker pool with
    | none => (st, pool)
    | some workerId => dispatchToWorker ctx pool { st with queue := rest } workerId item.1

/-- Embedding of `submit` (orchestrator dispatcher.ts): create the `queued`
execution record (best effort), append to the queue, and run
`processQueue`. -/
def submit (ctx : DispatchContext) (pool : PoolState) (st : DispatcherState)
    (request : ExecRequest) : DispatcherState × PoolState :=
  let st1 :=
    match st.db with
    | some d =>
      { st with db := some (createExecution d request.executionId request.personaId
          (some request.prompt) request.projectId ctx.now) }
    | none => st
  processQueue ctx pool { st1 with queue := st1.queue ++ [(request, ctx.now)] }

/-- The entry state `assign` leaves behind for the assigned worker. -/
def executingEntry (entry : WorkerEntry) (executionId : String) : WorkerEntry :=
  { entry with info := { entry.info with status := "executing", currentExecutionId := some executionId } }

/-- `send` never changes the worker map. -/
theorem send_preserves_workers (st : PoolState) (workerId : String)
    (msg : OrchestratorMessage) :
    (WorkerPool.send st workerId msg).1.workers = st.workers := by
  unfold WorkerPool.send
  cases h : mapGet st.workers workerId with
  | none => rfl
  | some e => by_cases ho : e.wsOpen = true <;> simp [ho]

/-- For an idle worker, `assign` rewrites the worker map to the executing
entry whether or not the send succeeds. -/
theorem assign_workers_eq (pool : PoolState) (workerId : String) (entry : WorkerEntry)
    (hw : mapGet pool.workers workerId = some entry)
    (hidle : entry.info.status = "idle") :
    ∀ assignment : ExecAssign,
      (WorkerPool.assign pool workerId assignment).1.workers =
        mapSet pool.workers workerId (executingEntry entry assignment.executionId) := by
  intro assignment
  unfold WorkerPool.assign
  rw [hw]
  simp only [hidle, bne_self_eq_false, Bool.false_eq_true, if_false]
  rw [send_preserves_workers]
  rfl

/-- For an idle worker whose transport is not open, `assign` reports
failure. -/
theorem assign_send_fails (pool : PoolState) (workerId : String) (entry : WorkerEntry)
    (hw : mapGet pool.workers workerId = some entry)
    (hidle : entry.info.status = "idle") (hclosed : entry.wsOpen = false) :
    ∀ assignment : ExecAssign,
      (WorkerPool.assign pool workerId assignment).2 = false := by
  intro assignment
  unfold WorkerPool.assign
  rw [hw]
  simp only [hidle, bne_self_eq_false, Bool.false_eq_true, if_false]
  unfold WorkerPool.send
  rw [mapGet_mapSet_self]
  simp [executingEntry, hclosed]

/-- A find-by-id survives the conditional row rewrite of
`updateExecution`, returning the rewritten row. -/
theorem find?_map_update (l : List PersonaExecution) (id : String) (u : ExecUpdates)
    (row : PersonaExecution) (h : l.find? (fun e => e.id == id) = some row) :
    (l.map (fun r => if r.id == id then applyExecUpdates r u else r)).find?
      (fun e => e.id == id) = some (applyExecUpdates row u) := by
  induction l with
  | nil => simp [List.find?] at h
  | cons r rest ih =>
    by_cases hr : (r.id == id) = true
    · have h2 : r = row := by
        rw [List.find?_cons] at h
        simp only [hr] at h
        exact Option.some_inj.mp h
      subst h2
      have hr2 : ((applyExecUpdates r u).id == id) = true := hr
      simp only [List.map_cons, List.find?_cons, hr, hr2, if_true]
    · have hr' : (r.id == id) = false := by
        rw [Bool.eq_false_iff]
        exact hr
      rw [List.find?_cons] at h
      simp only [hr'] at h
      simp only [List.map_cons, List.find?_cons, hr', Bool.false_eq_true, if_false]
      exact ih h

/-- `updateExecution` rewrites the row with the given id by
`applyExecUpdates` and leaves it findable. -/
theorem getExecution_updateExecution_self (d : Db) (id : String) (u : ExecUpdates)
    (row : PersonaExecution) (h : getExecution d id = some row) :
    getExecution (updateExecution d id u) id = some (applyExecUpdates row u) := by
  unfold getExecution at *
  unfold updateExecution
  exact find?_map_update d.executions id u row h


/-- A key present in `mapSet l k v` was present in `l` or is `k`. -/
theorem mem_keys_mapSet {α : Type} (l : List (String × α)) (k x : String) (v : α)
    (hx : x ∈ (mapSet l k v).map Prod.fst) : x ∈ l.map Prod.fst ∨ x = k := by
  induction l with
  | nil =>
    simp [mapSet] at hx
    exact Or.inr hx
  | cons kv rest ih =>
    by_cases hk : kv.1 = k
    · rw [show mapSet (kv :: rest) k v = (k, v) :: rest from by simp [mapSet, hk]] at hx
      simp only [List.map_cons, List.mem_cons] at hx ⊢
      rcases hx with h1 | h2
      · exact Or.inr h1
      · exact Or.inl (Or.inr h2)
    · rw [show mapSet (kv :: rest) k v = kv :: mapSet rest k v from by
        simp [mapSet, beq_false_of_ne hk]] at hx
      simp only [List.map_cons, List.mem_cons] at hx ⊢
      rcases hx with h1 | h2
      · exact Or.inl (Or.inl h1)
      · rcases ih h2 with h3 | h4
        · exact Or.inl (Or.inr h3)
        · exact Or.inr h4

/-- `mapSet` preserves key uniqueness. -/
theorem mapSet_keys_nodup {α : Type} (l : List (String × α)) (k : String) (v : α)
    (h : (l.map Prod.fst).Nodup) : ((mapSet l k v).map Prod.fst).Nodup := by
  induction l with
  | nil => simp [mapSet]
  | cons kv rest ih =>
    rw [List.map_cons, List.nodup_cons] at h
    obtain ⟨hni, hnd⟩ := h
    by_cases hk : kv.1 = k
    · rw [show mapSet (kv :: rest) k v = (k, v) :: rest from by simp [mapSet, hk]]
      rw [List.map_cons, List.nodup_cons]
      refine ⟨?_, hnd⟩
      rw [← hk]
      exact hni
    · rw [show mapSet (kv :: rest) k v = kv :: mapSet rest k v from by
        simp [mapSet, beq_false_of_ne hk]]
      rw [List.map_cons, List.nodup_cons]
      refine ⟨?_, ih hnd⟩
      intro hmem
      rcases mem_keys_mapSet rest k kv.1 v hmem with h1 | h2
      · exact hni h1
      · exact hk h2

/-- With unique keys, membership determines the `mapGet` result. -/
theorem mapGet_eq_of_mem {α : Type} (l : List (String × α)) (k : String) (v : α)
    (hnd : (l.map Prod.fst).Nodup) (hm : (k, v) ∈ l) : mapGet l k = some v := by
  induction l with
  | nil => simp at hm
  | cons kv rest ih =>
    rw [List.map_cons, List.nodup_cons] at hnd
    obtain ⟨hni, hnd2⟩ := hnd
    rcases List.mem_cons.mp hm with h1 | h2
    · rw [← h1]
      simp [mapGet, List.find?_cons]
    · by_cases hk : kv.1 = k
      · exfalso
        apply hni
        rw [hk]
        exact List.mem_map.mpr ⟨(k, v), h2, rfl⟩
      · have : mapGet (kv :: rest) k = mapGet rest k := by
          simp [mapGet, List.find?_cons, beq_false_of_ne hk]
        rw [this]
        exact ih hnd2 h2

/-- With unique keys, a worker registered as executing is never the result
of `getIdleWorker`. -/
theorem getIdleWorker_ne_of_executing (pool2 : PoolState) (workerId : String)
    (entry2 : WorkerEntry)
    (hnd : (pool2.workers.map Prod.fst).Nodup)
    (hge : mapGet pool2.workers workerId = some entry2)
    (hex : entry2.info.status = "executing") :
    WorkerPool.getIdleWorker pool2 ≠ some workerId := by
  intro hcon
  unfold WorkerPool.getIdleWorker at hcon
  cases hf : pool2.workers.find? (fun kv => kv.2.info.status == "idle") with
  | none =>
    rw [hf] at hcon
    exact Option.noConfusion hcon
  | some kv =>
    rw [hf] at hcon
    simp only [Option.map] at hcon
    have hk1 : kv.1 = workerId := Option.some_inj.mp hcon
    have hprop := List.find?_some hf
    have hmem := List.mem_of_find?_eq_some hf
    have hget : mapGet pool2.workers kv.1 = some kv.2 := by
      apply mapGet_eq_of_mem pool2.workers kv.1 kv.2 hnd
      simpa using hmem
    rw [hk1, hge] at hget
    have hkv2 : kv.2 = entry2 := Option.some_inj.mp hget.symm
    rw [hkv2, hex] at hprop
    exact absurd (beq_iff_eq.mp hprop) (by decide)

/-- Claim C6: when the send inside dispatchToWorker's assign step fails
(idle worker whose transport is not open), the Dispatcher removes
`active[executionId]`, reverts the execution record to `queued`, and pushes
the request back on the front of the queue, where `processQueue` dequeues
from. -/
theorem dispatch_send_failure_requeues (ctx : DispatchContext) (pool : PoolState)
    (st : DispatcherState) (workerId : String) (request : ExecRequest)
    (token : String) (entry : WorkerEntry) (d : Db) (row : PersonaExecution)
    (htok : claudeTokenOf ctx = some token)
    (hw : mapGet pool.workers workerId = some entry)
    (hidle : entry.info.status = "idle")
    (hclosed : entry.wsOpen = false)
    (hdb : st.db = some d)
    (hrow : getExecution d request.executionId = some row) :
    mapGet (dispatchToWorker ctx pool st workerId request).1.active request.executionId = none ∧
    (dispatchToWorker ctx pool st workerId request).1.queue = (request, ctx.now) :: st.queue ∧
    ∃ d2, (dispatchToWorker ctx pool st workerId request).1.db = some d2 ∧
      ∃ row2, getExecution d2 request.executionId = some row2 ∧ row2.status = "queued" := by
  have hfail := assign_send_fails pool workerId entry hw hidle hclosed
  simp only [dispatchToWorker, htok, hdb, hfail, Bool.false_eq_true, if_false]
  refine ⟨?_, trivial, ?_⟩
  · exact mapGet_mapDelete_self _ _
  · refine ⟨_, rfl, ?_⟩
    have h1 := getExecution_updateExecution_self d request.executionId
      { noUpdates with status := some ("running"), startedAt := some ctx.now } row hrow
    have h2 := getExecution_updateExecution_self _ request.executionId
      { noUpdates with status := some ("queued") } _ h1
    exact ⟨_, h2, rfl⟩

/-- Worker entry fixture for the C5/C6 statements: idle but with a closed
transport, so a send to it fails. -/
def c5Entry : WorkerEntry :=
  { transportId := 1
    wsOpen := false
    info :=
      { workerId := "w1", status := "idle", version := "1.0.0", capabilities := []
        currentExecutionId := none, connectedAt := 0, lastHeartbeat := 0 } }

/-- Pool fixture with the closed-transport idle worker. -/
def c5Pool : PoolState :=
  { workers := [("w1", c5Entry)], sentFrames := [], closedTransports := [], emitted := [] }

/-- Dispatch context fixture with a stored token. -/
def c5Ctx : DispatchContext :=
  { codec := trivialCodec, oauthToken := none, storedToken := some ("tok")
    decryptCred := fun _ => none, masterKeySet := false, now := 1000 }

/-- Dispatcher state fixture without a database handle. -/
def c5St : DispatcherState :=
  { queue := [], active := [], db := none, produced := [] }

/-- Request fixture. -/
def c5Request : ExecRequest :=
  { executionId := "e1", personaId := "p1", prompt := "hi", projectId := none
    credentialIds := none, inputData := none
    config := { timeoutMs := 1000, maxConcurrent := none }
    triggerId := none, triggerType := none }

/-- Claim C5 counterexample: after the Dispatcher finishes handling the
failed assign, the worker session is still `executing` with
`currentExecutionId` set — the `state = executing` mutation performed by
`assign` is never rolled back — and `getIdleWorker` no longer returns the
worker, contradicting the claimed return to idle. -/
theorem assign_failure_no_rollback_counterexample :
    ((mapGet (dispatchToWorker c5Ctx c5Pool c5St ("w1") c5Request).2.workers ("w1")).map
        (fun e => (e.info.status, e.info.currentExecutionId))) =
      some (("executing", some ("e1"))) ∧
    WorkerPool.getIdleWorker (dispatchToWorker c5Ctx c5Pool c5St ("w1") c5Request).2 = none := by
  refine ⟨by decide, by decide⟩

/-- Claim C5 (amended): after a failed assign is handled, the Dispatcher has
reverted only its own bookkeeping; the worker session keeps the
`executing` state and `currentExecutionId` set by `assign`, and
`getIdleWorker` does not return this worker (its session is cleaned up
only by a later ready/complete frame or disconnect). -/
theorem assign_failure_no_rollback (ctx : DispatchContext) (pool : PoolState)
    (st : DispatcherState) (workerId : String) (request : ExecRequest)
    (token : String) (entry : WorkerEntry)
    (htok : claudeTokenOf ctx = some token)
    (hw : mapGet pool.workers workerId = some entry)
    (hidle : entry.info.status = "idle")
    (hclosed : entry.wsOpen = false)
    (hnd : (pool.workers.map Prod.fst).Nodup) :
    mapGet (dispatchToWorker ctx pool st workerId request).2.workers workerId =
      some (executingEntry entry request.executionId) ∧
    WorkerPool.getIdleWorker (dispatchToWorker ctx pool st workerId request).2 ≠
      some workerId := by
  have hfail := assign_send_fails pool workerId entry hw hidle hclosed
  have hweq := assign_workers_eq pool workerId entry hw hidle
  have hpool : (dispatchToWorker ctx pool st workerId request).2.workers =
      mapSet pool.workers workerId (executingEntry entry request.executionId) := by
    simp only [dispatchToWorker, htok, hfail, Bool.false_eq_true, if_false]
    exact hweq _
  constructor
  · rw [hpool]
    exact mapGet_mapSet_self _ _ _
  · apply getIdleWorker_ne_of_executing _ workerId (executingEntry entry request.executionId)
    · rw [hpool]
      exact mapSet_keys_nodup _ _ _ hnd
    · rw [hpool]
      exact mapGet_mapSet_self _ _ _
    · rfl

/-- Witness for the amended C5 theorem at the concrete closed-transport
pool. -/
theorem assign_failure_no_rollback_witness :
    mapGet (dispatchToWorker c5Ctx c5Pool c5St ("w1") c5Request).2.workers ("w1") =
      some (executingEntry c5Entry ("e1")) ∧
    WorkerPool.getIdleWorker (dispatchToWorker c5Ctx c5Pool c5St ("w1") c5Request).2 ≠
      some ("w1") :=
  assign_failure_no_rollback c5Ctx c5Pool c5St ("w1") c5Request ("tok") c5Entry
    (by decide) (by decide) (by decide) (by decide) (by decide)

/-- Execution row fixture for the C6 witness. -/
def c6Row : PersonaExecution :=
  { id := "e1", projectId := "default", personaId := "p1", triggerId := none
    useCaseId := none, status := "queued", inputData := none, outputData := none
    claudeSessionId := none, costUsd := 0, errorMessage := none, durationMs := none
    startedAt := none, completedAt := none, createdAt := 0 }

/-- Database fixture for the C6 witness. -/
def c6Db : Db := { emptyDb with executions := [c6Row] }

/-- Dispatcher state fixture with the database for the C6 witness. -/
def c6St : DispatcherState :=
  { queue := [], active := [], db := some c6Db, produced := [] }

/-- Witness for C6 at the concrete closed-transport pool and stored record. -/
theorem dispatch_send_failure_requeues_witness :
    mapGet (dispatchToWorker c5Ctx c5Pool c6St ("w1") c5Request).1.active ("e1") = none ∧
    (dispatchToWorker c5Ctx c5Pool c6St ("w1") c5Request).1.queue = [(c5Request, 1000)] ∧
    ∃ d2, (dispatchToWorker c5Ctx c5Pool c6St ("w1") c5Request).1.db = some d2 ∧
      ∃ row2, getExecution d2 ("e1") = some row2 ∧ row2.status = "queued" := by
  have h := dispatch_send_failure_requeues c5Ctx c5Pool c6St ("w1") c5Request ("tok")
    c5Entry c6Db c6Row (by decide) (by decide) (by decide) (by decide) rfl (by decide)
  exact h


/-- With absent input data the input-data sections vanish. -/
theorem inputDataSections_none (codec : JsonCodec) (prompt : String) :
    inputDataSections codec none prompt = prompt := rfl

/-- With truthy input data the input-data text is appended. -/
theorem inputDataSections_some_truthy (codec : JsonCodec) (j : Json) (prompt : String)
    (hj : j.truthy = true) :
    inputDataSections codec (some j) prompt = prompt ++ inputDataText codec j := by
  show (if j.truthy = true then prompt ++ inputDataText codec j else prompt) = _
  rw [hj]
  simp

/-- The input-data text is never empty: it carries at least the Input Data
section header and fences. -/
theorem inputDataText_length_pos (codec : JsonCodec) (j : Json) :
    0 < (inputDataText codec j).length := by
  unfold inputDataText
  simp only [String.length_append]
  have h : 0 < ("## Input Data\n```json\n").length := by decide
  omega

/-- A prompt assembled with truthy input data is strictly longer than the
same assembly without input data. -/
theorem assemblePrompt_inputData_length (codec : JsonCodec) (persona : Persona)
    (tools : List PersonaToolDefinition) (j : Json)
    (credentialHints : Option (List String)) (hj : j.truthy = true) :
    (assemblePrompt codec persona tools none credentialHints).length <
      (assemblePrompt codec persona tools (some j) credentialHints).length := by
  unfold assemblePrompt
  rw [inputDataSections_none, inputDataSections_some_truthy codec j _ hj]
  simp only [String.length_append]
  have h := inputDataText_length_pos codec j
  omega

/-- A prompt assembled with truthy input data contains the `## Input Data`
section header. -/
theorem assemblePrompt_inputData_header_infix (codec : JsonCodec) (persona : Persona)
    (tools : List PersonaToolDefinition) (j : Json)
    (credentialHints : Option (List String)) (hj : j.truthy = true) :
    ("## Input Data").data <:+:
      (assemblePrompt codec persona tools (some j) credentialHints).data := by
  unfold assemblePrompt
  rw [inputDataSections_some_truthy codec j _ hj]
  have h1 : ("## Input Data").data <+: ("## Input Data\n```json\n").data := by decide
  have h2 : ("## Input Data\n```json\n").data <:+: (inputDataText codec j).data := by
    unfold inputDataText
    simp only [String.data_append]
    rw [List.append_assoc]
    exact List.infix_append _ _ _
  have h4 : (inputDataText codec j).data <:+:
      ((assemblePromptBase codec persona tools credentialHints ++ inputDataText codec j) ++
        executeNowTail persona tools).data := by
    simp only [String.data_append]
    exact List.infix_append _ _ _
  exact (h1.isInfix.trans h2).trans h4

/-- Event payload used for the C4 pipeline. -/
def c4Payload : String := "\x7b\"k\":1\x7d"

/-- The JSON value Node would parse out of the C4 payload. -/
def c4Json : Json := Json.obj [("k", Json.num 1)]

/-- Codec fixture modelling the host JSON library on the C4 inputs. -/
def c4Codec : JsonCodec :=
  { trivialCodec with
    parse := fun s => if s == c4Payload then some c4Json else none
    stringifyPretty := fun j =>
      match j with
      | Json.obj [("k", Json.num 1)] => "\x7b\n  \"k\": 1\n\x7d"
      | _ => "" }

/-- Persona fixture stored in the database for C4. -/
def c4Persona : Persona := mkPersona ("p1") 1

/-- Database fixture for C4: the persona exists, no tools or credentials,
nothing running. -/
def c4Db : Db := { emptyDb with personas := [c4Persona] }

/-- The event match handed to the per-match body for C4: targeted at the
stored persona, carrying the payload. -/
def c4Match : EventMatch :=
  { eventId := "e1", eventType := "tick", subscriptionId := "s1", personaId := "p1"
    payload := some c4Payload, sourceId := none, useCaseId := none }

/-- The request of a submitted outcome. -/
def MatchOutcome.request? : MatchOutcome → Option ExecRequest
  | .submitted r => some r
  | _ => none

/-- Placeholder request (never reached on the C4 inputs). -/
def c4DefaultRequest : ExecRequest :=
  { executionId := "", personaId := "", prompt := "", projectId := none
    credentialIds := none, inputData := none
    config := { timeoutMs := 0, maxConcurrent := none }
    triggerId := none, triggerType := none }

/-- The request the Event Processor submits for the C4 match. -/
def c4Req : ExecRequest :=
  ((eventBusProcessMatch c4Codec c4Db ("x1") c4Match).request?).getD c4DefaultRequest

/-- Dispatch context fixture for C4. -/
def c4Ctx : DispatchContext :=
  { codec := c4Codec, oauthToken := none, storedToken := some ("tok")
    decryptCred := fun _ => none, masterKeySet := false, now := 5 }

/-- Worker entry fixture for C4: idle with an open transport. -/
def c4Entry : WorkerEntry :=
  { transportId := 1
    wsOpen := true
    info :=
      { workerId := "w1", status := "idle", version := "1.0.0", capabilities := []
        currentExecutionId := none, connectedAt := 0, lastHeartbeat := 0 } }

/-- Pool fixture for C4. -/
def c4Pool : PoolState :=
  { workers := [("w1", c4Entry)], sentFrames := [], closedTransports := [], emitted := [] }

/-- Dispatcher state fixture for C4 with the database attached. -/
def c4St : DispatcherState :=
  { queue := [], active := [], db := some c4Db, produced := [] }

/-- The prompt carried by an assign frame, if the frame is an assign. -/
def frameAssignPrompt : String × OrchestratorMessage → Option String
  | (_, OrchestratorMessage.assign a) => some a.prompt
  | _ => none

/-- Claim C4 at the failing input: the Event Processor assembles the
request prompt from the parsed payload — it contains the Input Data
section — but never sets `request.inputData`; the Dispatcher then replaces
`request.prompt` with a prompt assembled from `request.inputData` (absent),
so the assign frame actually sent to the worker carries the input-free
prompt, which differs from the prompt that contained the event input
data. -/
theorem eventBus_inputData_lost :
    (eventBusProcessMatch c4Codec c4Db ("x1") c4Match).request? = some c4Req ∧
    c4Req.prompt = assemblePrompt c4Codec c4Persona [] (some c4Json) none ∧
    ("## Input Data").data <:+: c4Req.prompt.data ∧
    c4Req.inputData = none ∧
    ((dispatchToWorker c4Ctx c4Pool c4St ("w1") c4Req).2.sentFrames.map frameAssignPrompt =
      [some (assemblePrompt c4Codec c4Persona [] none none)]) ∧
    assemblePrompt c4Codec c4Persona [] none none ≠ c4Req.prompt := by
  have hprompt : c4Req.prompt = assemblePrompt c4Codec c4Persona [] (some c4Json) none := rfl
  refine ⟨rfl, hprompt, ?_, rfl, ?_, ?_⟩
  · rw [hprompt]
    exact assemblePrompt_inputData_header_infix c4Codec c4Persona [] c4Json none rfl
  · rfl
  · intro heq
    have hlen := congrArg String.length heq
    rw [hprompt] at hlen
    have hlt := assemblePrompt_inputData_length c4Codec c4Persona [] c4Json none rfl
    omega


/-- JavaScript regex `\s` whitespace (ASCII range as used here). -/
def jsWhitespace (c : Char) : Bool :=
  c == ' ' || c == '\t' || c == '\n' || c == '\r' || c == '\x0b' || c == '\x0c'

/-- The value of a digit run, as `parseInt(digits, 10)`. -/
def digitsToNat (cs : List Char) : Nat :=
  cs.foldl (fun n c => n * 10 + (c.toNat - 48)) 0

/-- The regex `/^every\s+(\d+)([smhd])$/i` of `computeNextCron` as a
character-level parser: case-insensitive `every`, one or more whitespace,
a digit run, one unit character, end of string; returns the captured
number and the lowercased unit. -/
def matchEveryPattern (cron : String) : Option (Nat × Char) :=
  let cs := cron.data
  if (cs.take 5).map Char.toLower ≠ ['e', 'v', 'e', 'r', 'y'] then none
  else
    let rest := cs.drop 5
    if (rest.takeWhile jsWhitespace).isEmpty then none
    else
      let rest2 := rest.dropWhile jsWhitespace
      let digits := rest2.takeWhile Char.isDigit
      if digits.isEmpty then none
      else
        match rest2.drop digits.length with
        | [u] =>
          let ul := u.toLower
          if ul == 's' || ul == 'm' || ul == 'h' || ul == 'd' then
            some (digitsToNat digits, ul)
          else none
        | _ => none

/-- The per-unit millisecond multiplier of `computeNextCron`
(`multipliers[unit] ?? 60000`; the default is unreachable because the
pattern only admits s/m/h/d). -/
def cronUnitMultiplier (unit : Char) : Nat :=
  if unit == 's' then 1000
  else if unit == 'm' then 60000
  else if unit == 'h' then 3600000
  else 86400000

/-- Embedding of `computeNextCron` (triggerScheduler.ts): `every N{s,m,h,d}`
advances now by N units; any other cron string falls back to one hour. -/
def computeNextCron (now : Nat) (cron : String) : Nat :=
  match matchEveryPattern cron with
  | some nu => now + nu.1 * cronUnitMultiplier nu.2
  | none => now + 3600000

/-- `else if (config.interval_seconds)`: a truthy (non-zero) interval gives
now plus that many seconds. -/
def intervalNext (cfg : TriggerConfig) (now : Nat) : Option Nat :=
  match cfg.interval_seconds with
  | some s => if s == 0 then none else some (now + s * 1000)
  | none => none

/-- The `nextTriggerAt` computed for a fired trigger
(triggerScheduler.ts): only a schedule trigger with a truthy, parseable
config gets a next time — from a truthy cron via `computeNextCron`, else
from a truthy `interval_seconds`; in every other case it stays null and
the trigger does not fire again. -/
def computeNextTriggerAt (codec : JsonCodec) (now : Nat)
    (trigger : PersonaTrigger) : Option Nat :=
  if trigger.triggerType == "schedule" then
    match trigger.config with
    | some cfgStr =>
      if cfgStr == "" then none
      else
        match codec.parseTriggerConfig cfgStr with
        | some cfg =>
          match cfg.cron with
          | some c => if c == "" then intervalNext cfg now else some (computeNextCron now c)
          | none => intervalNext cfg now
        | none => none
    | none => none
  else none

/-- The arguments `db.publishEvent` receives for a fired trigger. -/
structure PublishedEventInput where
  eventType : String
  sourceType : String
  sourceId : Option String
  targetPersonaId : Option String
  projectId : Option String
  payload : Option String
  useCaseId : Option String
deriving Repr, DecidableEq

/-- What firing one trigger persists: the published event input,
`lastTriggeredAt` and `nextTriggerAt` as passed to
`updateTriggerTimings`. -/
structure TriggerFireResult where
  published : PublishedEventInput
  lastTriggeredAt : Nat
  nextTriggerAt : Option Nat
deriving Repr, DecidableEq

/-- The per-trigger body of `triggerSchedulerTick` for a non-polling due
trigger: parse the config for event type and payload (defaults on a
missing, empty or unparseable config), publish the event sourced from the
trigger, and persist `lastTriggeredAt = now` with the computed
`nextTriggerAt`. -/
def triggerSchedulerFire (codec : JsonCodec) (db : Db) (now : Nat)
    (trigger : PersonaTrigger) : TriggerFireResult :=
  let parsed : Option TriggerConfig :=
    match trigger.config with
    | some cfgStr => if cfgStr == "" then none else codec.parseTriggerConfig cfgStr
    | none => none
  let eventType :=
    match parsed with
    | some cfg =>
      match cfg.event_type with
      | some e => if e == "" then "trigger_fired" else e
      | none => "trigger_fired"
    | none => "trigger_fired"
  let payload : Option String :=
    match parsed with
    | some cfg =>
      match cfg.payload with
      | some p => if p.truthy then some (codec.stringify p) else none
      | none => none
    | none => none
  let persona := getPersona db trigger.personaId
  { published :=
      { eventType := eventType
        sourceType := "trigger"
        sourceId := some trigger.id
        targetPersonaId := some trigger.personaId
        projectId := persona.map (fun p => p.projectId)
        payload := payload
        useCaseId := trigger.useCaseId }
    lastTriggeredAt := now
    nextTriggerAt := computeNextTriggerAt codec now trigger }

/-- db.ts `getDueTriggers`: enabled triggers whose nextTriggerAt has
passed. -/
def getDueTriggers (db : Db) (now : Nat) : List PersonaTrigger :=
  db.triggers.filter (fun t =>
    t.enabled && (match t.nextTriggerAt with
      | some n => decide (n ≤ now)
      | none => false))

/-- The trigger scheduler tick: fire every due trigger except polling ones,
collecting what each fire persists. -/
def triggerSchedulerTick (codec : JsonCodec) (db : Db) (now : Nat) :
    List (String × TriggerFireResult) :=
  ((getDueTriggers db now).filter (fun t => t.triggerType != "polling")).map
    (fun t => (t.id, triggerSchedulerFire codec db now t))

/-- Claim C9 (amended): for every fired trigger `lastTriggeredAt` is
persisted as now, and `nextTriggerAt` is: for a schedule trigger with a
truthy parseable config — now + N×unit when the truthy cron matches
`/^every\s+(\d+)([smhd])$/i`, now + 1 hour when the truthy cron does not
match, now + interval_seconds×1000 for a truthy interval without a truthy
cron — and null (no further firing) for all other triggers, including
non-schedule ones the claim said fall back to one hour. -/
theorem triggerFire_timings (codec : JsonCodec) (db : Db) (now : Nat)
    (trigger : PersonaTrigger) :
    (triggerSchedulerFire codec db now trigger).lastTriggeredAt = now ∧
    (triggerSchedulerFire codec db now trigger).nextTriggerAt =
      computeNextTriggerAt codec now trigger ∧
    (∀ cfgStr cfg c value unit, trigger.triggerType = "schedule" →
      trigger.config = some cfgStr → cfgStr ≠ "" →
      codec.parseTriggerConfig cfgStr = some cfg →
      cfg.cron = some c → c ≠ "" →
      matchEveryPattern c = some (value, unit) →
      computeNextTriggerAt codec now trigger =
        some (now + value * cronUnitMultiplier unit)) ∧
    (∀ cfgStr cfg c, trigger.triggerType = "schedule" →
      trigger.config = some cfgStr → cfgStr ≠ "" →
      codec.parseTriggerConfig cfgStr = some cfg →
      cfg.cron = some c → c ≠ "" →
      matchEveryPattern c = none →
      computeNextTriggerAt codec now trigger = some (now + 3600000)) ∧
    (∀ cfgStr cfg s, trigger.triggerType = "schedule" →
      trigger.config = some cfgStr → cfgStr ≠ "" →
      codec.parseTriggerConfig cfgStr = some cfg →
      cfg.cron = none → cfg.interval_seconds = some s → s ≠ 0 →
      computeNextTriggerAt codec now trigger = some (now + s * 1000)) ∧
    (trigger.triggerType ≠ "schedule" →
      computeNextTriggerAt codec now trigger = none) := by
  refine ⟨rfl, rfl, ?_, ?_, ?_, ?_⟩
  · intro cfgStr cfg c value unit ht hc hne hp hcr hcne hm
    unfold computeNextTriggerAt
    rw [ht, hc]
    simp only [beq_self_eq_true, if_true, beq_false_of_ne hne, Bool.false_eq_true, if_false]
    rw [hp]
    simp only []
    rw [hcr]
    simp only [beq_false_of_ne hcne, Bool.false_eq_true, if_false]
    unfold computeNextCron
    rw [hm]
  · intro cfgStr cfg c ht hc hne hp hcr hcne hm
    unfold computeNextTriggerAt
    rw [ht, hc]
    simp only [beq_self_eq_true, if_true, beq_false_of_ne hne, Bool.false_eq_true, if_false]
    rw [hp]
    simp only []
    rw [hcr]
    simp only [beq_false_of_ne hcne, Bool.false_eq_true, if_false]
    unfold computeNextCron
    rw [hm]
  · intro cfgStr cfg s ht hc hne hp hcr hi hs
    unfold computeNextTriggerAt
    rw [ht, hc]
    simp only [beq_self_eq_true, if_true, beq_false_of_ne hne, Bool.false_eq_true, if_false]
    rw [hp]
    simp only []
    rw [hcr]
    simp only []
    unfold intervalNext
    rw [hi]
    simp only [beq_false_of_ne hs, Bool.false_eq_true, if_false]
  · intro ht
    unfold computeNextTriggerAt
    simp only [beq_false_of_ne ht, Bool.false_eq_true, if_false]

/-- Due manual trigger for the C9 counterexample. -/
def c9Manual : PersonaTrigger :=
  { id := "t1", personaId := "p1", triggerType := "manual", config := none
    enabled := true, lastTriggeredAt := none, nextTriggerAt := some 0
    useCaseId := none, createdAt := 0, updatedAt := 0 }

/-- Claim C9 counterexample: a due manual trigger fired at time 1000 is
persisted with `lastTriggeredAt = 1000` but `nextTriggerAt = null`, not
the claimed one-hour fallback `now + 3600000`. -/
theorem triggerFire_c9_counterexample :
    (triggerSchedulerFire trivialCodec emptyDb 1000 c9Manual).lastTriggeredAt = 1000 ∧
    (triggerSchedulerFire trivialCodec emptyDb 1000 c9Manual).nextTriggerAt = none ∧
    (triggerSchedulerFire trivialCodec emptyDb 1000 c9Manual).nextTriggerAt ≠
      some (1000 + 3600000) := by
  refine ⟨rfl, rfl, by decide⟩

/-- Codec fixture whose trigger-config parser accepts the C9 witness
config string. -/
def c9Codec : JsonCodec :=
  { trivialCodec with
    parseTriggerConfig := fun s =>
      if s == "\x7b\"cron\":\"every 10s\"\x7d" then
        some { event_type := none, payload := none, cron := some ("every 10s")
               interval_seconds := none }
      else none }

/-- Due schedule trigger for the C9 witness. -/
def c9Sched : PersonaTrigger :=
  { id := "t2", personaId := "p1", triggerType := "schedule"
    config := some ("\x7b\"cron\":\"every 10s\"\x7d")
    enabled := true, lastTriggeredAt := none, nextTriggerAt := some 0
    useCaseId := none, createdAt := 0, updatedAt := 0 }

/-- Witness for the amended C9 theorem: the schedule trigger with cron
`every 10s` fired at time 0 gets `lastTriggeredAt = 0` and
`nextTriggerAt = 10 seconds later`. -/
theorem triggerFire_timings_witness :
    (triggerSchedulerFire c9Codec emptyDb 0 c9Sched).lastTriggeredAt = 0 ∧
    computeNextTriggerAt c9Codec 0 c9Sched = some (0 + 10 * cronUnitMultiplier 's') := by
  have h := triggerFire_timings c9Codec emptyDb 0 c9Sched
  refine ⟨h.1, ?_⟩
  exact h.2.2.1 ("\x7b\"cron\":\"every 10s\"\x7d")
    { event_type := none, payload := none, cron := some ("every 10s"), interval_seconds := none }
    ("every 10s") 10 's' rfl rfl (by decide) rfl rfl (by decide) (by decide)

end PersonasCloud
